import Mathlib

/-!
# Verification of the ERP agent query-orchestration core

This file gives a shallow embedding, in Lean 4, of the deterministic core of
the `erp_agent` repository — the SQL safety gate (`SQLExecutor.validate_sql`,
`SQLValidator.validate`), the execution-error classifier
(`SQLValidator.analyze_execution_error`), the sufficiency normalization
(`ResultAnalyzer._validate_and_fix_analysis`), the answer-stage data packager
(`ResultAnalyzer._smart_sample_data_for_answer`), the executor
(`SQLExecutor.execute`) and the orchestration loops (`ERPAgent.query`,
`ERPAgent.query_stream`) — and proves or refutes the specification claims
about them.

External collaborators (the LLM generation / judgment / synthesis calls and
the database) are modelled as oracles: fixed response sequences indexed by
call number, exactly as the claims quantify over "every fixed sequence of
collaborator responses".  Machine text is modelled as `List Char`; Python's
`while` loops that are not structurally bounded are modelled with an explicit
fuel parameter, `none` meaning the loop has not finished within the given
fuel.
-/

namespace ErpAgent

/-! ## Basic character/list utilities mirroring the Python string operations -/

/-- Python whitespace, as used by `str.strip()` / `str.split()` / `\s`
(ASCII fragment). -/
def isPyWs (c : Char) : Bool :=
  c = ' ' || c = '\t' || c = '\n' || c = '\r' || c = '\x0b' || c = '\x0c'

/-- `str.upper()` (ASCII fragment; CJK characters are unaffected, as in
Python). -/
def toUpperL (s : List Char) : List Char := s.map Char.toUpper

/-- `str.lower()` (ASCII fragment). -/
def toLowerL (s : List Char) : List Char := s.map Char.toLower

/-- `str.strip()`: drop leading and trailing whitespace. -/
def stripL (s : List Char) : List Char :=
  (s.dropWhile isPyWs).reverse.dropWhile isPyWs |>.reverse

/-- `str.split(sep)` for a single separator character (keeps empty parts). -/
def splitOnCharL (sep : Char) : List Char → List (List Char)
  | [] => [[]]
  | c :: rest =>
    let r := splitOnCharL sep rest
    if c = sep then [] :: r
    else match r with
      | [] => [[c]]
      | h :: t => (c :: h) :: t

/-- `s.split()[0] if s.split() else ""`: the first whitespace-delimited
token of `s` (empty when there is none). -/
def firstWordL (s : List Char) : List Char :=
  (s.dropWhile isPyWs).takeWhile (fun c => !isPyWs c)

/-- `sep.join(parts)` for a single-character separator. -/
def joinWithChar (sep : Char) : List (List Char) → List Char
  | [] => []
  | [p] => p
  | p :: ps => p ++ sep :: joinWithChar sep ps

/-- Index of the first occurrence of `pat` as a contiguous sublist of `s`
(Python `s.index(pat)` / `s.find(pat)`). -/
def firstMatch (pat : List Char) : List Char → Option Nat
  | [] => if pat.isPrefixOf ([] : List Char) then some 0 else none
  | c :: rest =>
    if pat.isPrefixOf (c :: rest) then some 0
    else (firstMatch pat rest).map (· + 1)

/-- Python `pat in s` (contiguous substring test). -/
def containsSub (pat s : List Char) : Bool := (firstMatch pat s).isSome

/-! ## `SQLExecutor.validate_sql` (src/erp_agent/core/sql_executor.py:160-214)

The security allow-list check of the Safety Gate.  The block-comment
removal loop (`while '/*' in s and '*/' in s`) is not structurally
terminating — see `blockLoop` — so it carries a fuel parameter. -/

/-- `self.forbidden_keywords` (sql_executor.py:58-61). -/
def forbiddenKeywords : List (List Char) :=
  ["DROP".data, "DELETE".data, "UPDATE".data, "INSERT".data, "TRUNCATE".data,
   "ALTER".data, "CREATE".data, "REPLACE".data, "GRANT".data, "REVOKE".data]

/-- Step 2a of `validate_sql`: remove `--` line comments from each line and
join the lines with a single space (sql_executor.py:184-189). -/
def stripLineComments (s : List Char) : List Char :=
  joinWithChar ' '
    ((splitOnCharL '\n' s).map fun line =>
      match firstMatch "--".data line with
      | some i => line.take i
      | none => line)

/-- Loop condition of the block-comment removal
(`'/\x2a' in s and '\x2a/' in s`). -/
def blockCond (s : List Char) : Bool :=
  containsSub "/*".data s && containsSub "*/".data s

/-- One pass of the block-comment removal loop
(`s = s[:start] + ' ' + s[end:]` with `start = s.index('/\x2a')`,
`end = s.index('\x2a/') + 2`, sql_executor.py:192-195).  Only meaningful
when `blockCond s` holds. -/
def spliceStep (s : List Char) : List Char :=
  match firstMatch "/*".data s, firstMatch "*/".data s with
  | some st, some en => s.take st ++ ' ' :: s.drop (en + 2)
  | _, _ => s

/-- The `while` loop of sql_executor.py:192-195, with explicit fuel;
`none` means the loop has not terminated within `fuel` passes. -/
def blockLoop : Nat → List Char → Option (List Char)
  | 0, s => if blockCond s then none else some s
  | fuel + 1, s => if blockCond s then blockLoop fuel (spliceStep s) else some s

/-- Full comment-stripping pipeline applied to the already
stripped-and-uppercased SQL: `sql_no_comments` of sql_executor.py:182-195. -/
def stripComments (fuel : Nat) (s : List Char) : Option (List Char) :=
  blockLoop fuel (stripLineComments s)

/-- The test of sql_executor.py:205-206 for one forbidden keyword:
`' KEYWORD ' in ' sql '  or  ' KEYWORD;' in ' sql;'`. -/
def keywordHit (k t : List Char) : Bool :=
  containsSub (' ' :: k ++ [' ']) (' ' :: t ++ [' ']) ||
  containsSub (' ' :: k ++ [';']) (' ' :: t ++ [';'])

/-- `SQLExecutor.validate_sql` (sql_executor.py:160-214).  Returns
`(is_valid, error_message)`; `none` when the block-comment removal loop
does not terminate within `fuel` passes. -/
def validateSql (fuel : Nat) (sql : List Char) : Option (Bool × Option String) :=
  let sqlNormalized := toUpperL (stripL sql)
  if sqlNormalized = [] then some (false, some "SQL 语句不能为空")
  else
    match blockLoop fuel (stripLineComments sqlNormalized) with
    | none => none
    | some t =>
      let firstKeyword := firstWordL t
      if firstKeyword ≠ "SELECT".data ∧ firstKeyword ≠ "WITH".data then
        some (false, some ("只允许 SELECT 查询（或使用 CTE 的 WITH 语句），当前开头: "
          ++ String.mk firstKeyword))
      else
        match forbiddenKeywords.find? (fun k => keywordHit k t) with
        | some k => some (false, some ("检测到禁止的关键字: " ++ String.mk k))
        | none =>
          let statements :=
            ((splitOnCharL ';' sqlNormalized).map stripL).filter (· ≠ [])
          if statements.length > 1 then
            some (false, some "不允许执行多条 SQL 语句")
          else some (true, none)

example : validateSql 10 "SELECT COUNT(*) FROM employees;".data = some (true, none) := by
  decide

example : (validateSql 10 "DROP TABLE employees;".data).map Prod.fst = some false := by
  decide

example :
    (validateSql 10 "SELECT 1; SELECT 2".data).map Prod.fst = some false := by
  decide

example :
    (validateSql 10 "SELECT a -- DROP\nFROM t".data) = some (true, none) := by
  decide

/-! ## "Standalone token" — the spec's notion

The spec claims the Gate rejects any forbidden keyword appearing "as a
standalone token".  We formalize a standalone token occurrence in the usual
lexical sense: an occurrence of the keyword delimited on both sides by a
non-word character (anything other than a letter, digit or underscore) or by
the string boundary. -/

/-- A word character in the sense of a SQL lexer / regex `\w`
(ASCII fragment). -/
def isWordChar (c : Char) : Bool :=
  c.isAlpha || c.isDigit || c = '_'

/-- `k` occurs in `t` starting at index `i`, delimited at both ends by a
non-word character or the string boundary. -/
def standaloneAt (k t : List Char) (i : Nat) : Bool :=
  k.isPrefixOf (t.drop i) &&
  (decide (i = 0) || !isWordChar (t.getD (i - 1) ' ')) &&
  !isWordChar (t.getD (i + k.length) ' ')

/-- `k` occurs somewhere in `t` as a standalone token. -/
def containsStandalone (k t : List Char) : Bool :=
  (List.range (t.length + 1)).any (standaloneAt k t)

/-- Some forbidden keyword occurs in `t` as a standalone token. -/
def containsForbiddenStandalone (t : List Char) : Bool :=
  forbiddenKeywords.any (containsStandalone · t)

example : containsStandalone "DROP".data "SELECT A\tDROP\tB".data = true := by decide
example : containsStandalone "DROP".data "SELECT DROPX FROM T".data = false := by decide
example : containsStandalone "DROP".data "SELECT 1 DROP; 2".data = true := by decide

/-! ## `SQLValidator` (src/erp_agent/core/sql_validator.py)

The structural/compatibility check of the Safety Gate, and the execution
error classifier. -/

/-- `ValidationResult` (sql_validator.py:15-22). -/
structure ValidationResult where
  is_valid : Bool
  error_type : Option String := none
  error_message : Option String := none
  suggestion : Option String := none
  fixed_sql : Option String := none
deriving Repr, DecidableEq

/-- `re.sub(r'--[^\n]*', '', sql)` as a left-to-right state machine: the
flag records whether the scan is inside a line comment (which ends right
before the newline, so the newline itself is kept). -/
def reSubLineCommentsAux : Bool → List Char → List Char
  | _, [] => []
  | true, c :: rest =>
    if c = '\n' then c :: reSubLineCommentsAux false rest
    else reSubLineCommentsAux true rest
  | false, '-' :: '-' :: rest => reSubLineCommentsAux true rest
  | false, c :: rest => c :: reSubLineCommentsAux false rest

/-- `re.sub(r'--[^\n]*', '', sql)`: delete from each `--` to the end of
its line, keeping the newline. -/
def reSubLineComments (s : List Char) : List Char := reSubLineCommentsAux false s

/-- Fueled scan for `reSubBlockComments`.  Every recursive call consumes at
least one character, so fuel equal to the input length always suffices. -/
def reSubBlockCommentsAux : Nat → List Char → List Char
  | 0, s => s
  | _ + 1, [] => []
  | fuel + 1, c :: rest =>
    if ("/*".data).isPrefixOf (c :: rest) then
      match firstMatch "*/".data (rest.drop 1) with
      | some i => reSubBlockCommentsAux fuel ((rest.drop 1).drop (i + 2))
      | none => c :: reSubBlockCommentsAux fuel rest
    else c :: reSubBlockCommentsAux fuel rest

/-- `re.sub(r'/\x2a.\x2a?\x2a/', '', sql, flags=re.DOTALL)`: delete each
block comment (through its first closer); an opener with no later closer
does not match and is kept. -/
def reSubBlockComments (s : List Char) : List Char :=
  reSubBlockCommentsAux s.length s

/-- `re.sub(r'\s+', ' ', sql)` as a state machine: the flag records whether
the previous character was whitespace (so each whitespace run contributes a
single space). -/
def collapseWsAux : Bool → List Char → List Char
  | _, [] => []
  | prevWs, c :: rest =>
    if isPyWs c then
      if prevWs then collapseWsAux true rest
      else ' ' :: collapseWsAux true rest
    else c :: collapseWsAux false rest

/-- `re.sub(r'\s+', ' ', sql)`: collapse whitespace runs to single spaces. -/
def collapseWs (s : List Char) : List Char := collapseWsAux false s

/-- `SQLValidator._clean_sql` (sql_validator.py:197-205). -/
def cleanSql (s : List Char) : List Char :=
  stripL (collapseWs (reSubBlockComments (reSubLineComments s)))

/-- Case-insensitive match of `pat` (given in lower case) at the start of
`s`, as under `re.IGNORECASE`. -/
def matchesCI (pat s : List Char) : Bool :=
  pat.isPrefixOf (toLowerL (s.take pat.length))

/-- `re.search(KW + r'\s+.\x2a?generate_series\s\x2a\(', sql, IGNORECASE|DOTALL)`:
an occurrence of the clause keyword followed by at least one whitespace
character, then (anything, then) `generate_series`, optional whitespace,
and an opening parenthesis (sql_validator.py:47, 54, 207-210). -/
def hasGenSeriesAfter (kw s : List Char) : Bool :=
  (List.range (s.length + 1)).any fun i =>
    matchesCI kw (s.drop i) &&
    (match (s.drop (i + kw.length)).head? with
     | some c => isPyWs c
     | none => false) &&
    ((List.range (s.length + 1)).any fun j =>
      decide (i + kw.length + 1 ≤ j) &&
      matchesCI "generate_series".data (s.drop j) &&
      (match ((s.drop (j + 15)).dropWhile isPyWs).head? with
       | some c => decide (c = '(')
       | none => false))

/-- The two `error_patterns` checks of `SQLValidator.validate`
(sql_validator.py:44-61, 77-88), in order. -/
def checkErrorPatterns (sqlClean : List Char) : Option ValidationResult :=
  if hasGenSeriesAfter "where".data sqlClean then
    some { is_valid := false
           error_type := some "syntax_error"
           error_message := some "generate_series不能直接在WHERE子句中使用"
           suggestion := some "将generate_series移到CTE（WITH子句）或FROM子句中，然后在WHERE中引用结果"
           fixed_sql := none }
  else if hasGenSeriesAfter "having".data sqlClean then
    some { is_valid := false
           error_type := some "syntax_error"
           error_message := some "generate_series不能在HAVING子句中使用"
           suggestion := some "将generate_series移到CTE或FROM子句中"
           fixed_sql := none }
  else none

/-- `SQLValidator._check_sql_structure` (sql_validator.py:212-234). -/
def checkSqlStructure (sqlClean : List Char) :
    Bool × Option String × Option String :=
  let sqlUpper := toUpperL sqlClean
  if !containsSub "SELECT".data sqlUpper then
    (false, some "SQL必须包含SELECT关键字", some "确保SQL是有效的查询语句")
  else if (sqlClean.count '(') ≠ (sqlClean.count ')') then
    (false, some "括号不匹配", some "检查SQL中的括号是否正确闭合")
  else if containsSub "WHERE".data sqlUpper && !containsSub "FROM".data sqlUpper then
    (false, some "缺少FROM子句", some "添加FROM子句")
  else (true, none, none)

/-- `SQLValidator.validate` (sql_validator.py:63-101). -/
def sqlValidatorValidate (sql : List Char) : ValidationResult :=
  let sqlClean := cleanSql sql
  match checkErrorPatterns sqlClean with
  | some r => r
  | none =>
    match checkSqlStructure sqlClean with
    | (false, msg, sugg) =>
      { is_valid := false, error_type := some "structure_error"
        error_message := msg, suggestion := sugg }
    | (true, _, _) => { is_valid := true }

example :
    (sqlValidatorValidate
      "SELECT * FROM employees WHERE generate_series(hire_date, CURRENT_DATE, '1 month') < CURRENT_DATE;".data).is_valid
      = false := by decide

example : (sqlValidatorValidate "WITH x".data).is_valid = false := by decide

example : (sqlValidatorValidate "SELECT (1 FROM t".data).is_valid = false := by decide

example :
    (sqlValidatorValidate "SELECT d, COUNT(*) FROM e GROUP BY d;".data).is_valid
      = true := by decide

/-! ## Python values

The loosely-typed records passed between the steps (LLM-produced analysis
dicts, result rows) are modelled by a small Python-value type. -/

/-- A Python value as it occurs in the inter-step payloads. -/
inductive PyVal where
  | none
  | bool (b : Bool)
  | int (n : Int)
  | float (q : ℚ)
  | str (s : String)
  | list (xs : List PyVal)
  | dict (kvs : List (String × PyVal))

/-- `d.get(key, default)` on an association-list dict. -/
def dictGet (kvs : List (String × PyVal)) (key : String) (dflt : PyVal) : PyVal :=
  match kvs.find? (fun kv => kv.1 = key) with
  | some kv => kv.2
  | Option.none => dflt

/-- Python `bool(v)`. -/
def pyTruthy : PyVal → Bool
  | .none => false
  | .bool b => b
  | .int n => n ≠ 0
  | .float q => q ≠ 0
  | .str s => s ≠ ""
  | .list xs => !xs.isEmpty
  | .dict kvs => !kvs.isEmpty

/-- `isinstance(v, (int, float))`; note Python's `bool` is a subclass of
`int`, so booleans count. -/
def isNumericPy : PyVal → Bool
  | .bool _ => true
  | .int _ => true
  | .float _ => true
  | _ => false

/-- Truncation of a rational toward zero, as Python `int(float)`. -/
def ratTrunc (q : ℚ) : Int :=
  let m : Nat := q.num.natAbs / q.den
  if q.num < 0 then -(m : Int) else (m : Int)

/-- Python `int(v)` for a numeric `v` (only used under `isNumericPy`). -/
def pyIntOfNum : PyVal → Int
  | .bool b => if b then 1 else 0
  | .int n => n
  | .float q => ratTrunc q
  | _ => 0

/-- `float(s)` on a string: optional sign, decimal digits with optional
fractional part, optional exponent.  (Python also accepts `inf`/`nan` and
digit-group underscores; those produce non-rational or exotic values and
are treated as coercion failures here.) -/
def parsePyFloat (s : List Char) : Option ℚ :=
  let s := stripL s
  let (sign, s) :=
    match s with
    | '+' :: rest => ((1 : ℚ), rest)
    | '-' :: rest => ((-1 : ℚ), rest)
    | _ => ((1 : ℚ), s)
  let intPart := s.takeWhile Char.isDigit
  let s := s.dropWhile Char.isDigit
  let (fracPart, s) :=
    match s with
    | '.' :: rest => (rest.takeWhile Char.isDigit, rest.dropWhile Char.isDigit)
    | _ => ([], s)
  if intPart = [] ∧ fracPart = [] then Option.none
  else
    let (expVal, s) :=
      match s with
      | e :: rest =>
        if e = 'e' ∨ e = 'E' then
          let (esign, rest') :=
            match rest with
            | '+' :: r => ((1 : Int), r)
            | '-' :: r => ((-1 : Int), r)
            | _ => ((1 : Int), rest)
          let eDigits := rest'.takeWhile Char.isDigit
          if eDigits = [] then ((0 : Int), e :: rest)
          else (esign * ((eDigits.foldl (fun (a : Nat) (c : Char) => a * 10 + (c.toNat - 48)) 0 : Nat) : Int),
                rest'.dropWhile Char.isDigit)
        else ((0 : Int), e :: rest)
      | [] => ((0 : Int), [])
    if s ≠ [] then Option.none
    else
      let iv : Nat := intPart.foldl (fun (a : Nat) (c : Char) => a * 10 + (c.toNat - 48)) 0
      let fv : Nat := fracPart.foldl (fun (a : Nat) (c : Char) => a * 10 + (c.toNat - 48)) 0
      let base : ℚ := (iv : ℚ) + (fv : ℚ) / ((10 : ℚ) ^ fracPart.length)
      some (sign * base * (10 : ℚ) ^ expVal)

/-- Python `float(v)`: `none` models a raised `ValueError`/`TypeError`. -/
def pyFloat : PyVal → Option ℚ
  | .bool b => some (if b then 1 else 0)
  | .int n => some (n : ℚ)
  | .float q => some q
  | .str s => parsePyFloat s.data
  | _ => Option.none

/-! ## `ResultAnalyzer._validate_and_fix_analysis`
(src/erp_agent/core/result_analyzer.py:457-503) — the defensive
normalization of the Sufficiency Decision Protocol. -/

/-- The normalized analysis record.  After normalization `next_action` is
always a string (an invalid incoming value is replaced by a derived one),
`completeness` a float, `is_sufficient` a boolean and the two list fields
lists, so those fields use the corresponding Lean types. -/
structure NormalizedAnalysis where
  is_sufficient : Bool
  completeness : ℚ
  suggestion : PyVal
  key_findings : List PyVal
  anomalies : List PyVal
  next_action : String

/-- `valid_actions` (result_analyzer.py:498). -/
def validActions : List String := ["generate_answer", "continue_query", "retry_query"]

/-- Membership of the raw `next_action` value in `valid_actions`
(Python `in` compares with `==`, which is `False` between a non-string
and a string). -/
def isValidAction (v : PyVal) : Bool :=
  match v with
  | .str s => validActions.contains s
  | _ => false

/-- `ResultAnalyzer._validate_and_fix_analysis` (result_analyzer.py:457-503). -/
def validateAndFixAnalysis (analysis : List (String × PyVal)) : NormalizedAnalysis :=
  let rawSuff := dictGet analysis "is_sufficient" (PyVal.bool false)
  let rawComp := dictGet analysis "completeness" (PyVal.float (1 / 2))
  let rawSugg := dictGet analysis "suggestion" (PyVal.str "")
  let rawKF := dictGet analysis "key_findings" (PyVal.list [])
  let rawAnom := dictGet analysis "anomalies" (PyVal.list [])
  let rawNext := dictGet analysis "next_action" (PyVal.str "continue_query")
  let completeness : ℚ :=
    match pyFloat rawComp with
    | some q => max 0 (min 1 q)
    | Option.none => 1 / 2
  let isSufficient : Bool :=
    match rawSuff with
    | .str s => toLowerL s.data = "true".data ∨ toLowerL s.data = "yes".data ∨
        toLowerL s.data = "1".data
    | v => pyTruthy v
  let keyFindings := match rawKF with | .list xs => xs | _ => []
  let anomalies := match rawAnom with | .list xs => xs | _ => []
  let nextAction : String :=
    if isValidAction rawNext then
      match rawNext with | .str s => s | _ => ""
    else if isSufficient then "generate_answer" else "continue_query"
  { is_sufficient := isSufficient
    completeness := completeness
    suggestion := rawSugg
    key_findings := keyFindings
    anomalies := anomalies
    next_action := nextAction }

/-! ## `ResultAnalyzer._smart_sample_data_for_answer`
(src/erp_agent/core/result_analyzer.py:841-864) — the Result Data
Packager applied before answer synthesis. -/

/-- A result row (`dict` row record). -/
abbrev Row := List (String × PyVal)

/-- `ResultAnalyzer._smart_sample_data_for_answer`
(result_analyzer.py:841-864): no row-level sampling or truncation; only an
annotation of the row count is attached. -/
def smartSampleDataForAnswer (data : List Row) (rowCount : Int) :
    List Row × String :=
  if rowCount ≤ 0 then (data, "")
  else (data, "\n⚠️ 注意：数据共 " ++ toString rowCount ++ " 行，已全部提供")

/-! ## `SQLValidator.analyze_execution_error`
(src/erp_agent/core/sql_validator.py:103-195) — the Execution Error
Classifier. -/

/-- The structured error diagnosis dict. -/
structure ErrorAnalysis where
  error_type : String
  diagnosis : String
  root_cause : String
  fix_strategy : String
  exampleText : Option String := none
  next_step : String
deriving Repr, DecidableEq

/-- `re.search(pre + r'(\w+)' + post, s)` with the captured word run:
finds the first position where `pre` matches, followed by a non-empty
maximal word-character run, followed by `post`.  (Since `post` starts with
a non-word character, regex backtracking cannot shorten the run, so the
maximal-run reading is exact.) -/
def findNameBetween (pre post : List Char) : List Char → Option (List Char)
  | [] => Option.none
  | c :: rest =>
    (if pre.isPrefixOf (c :: rest) then
      let afterPre := (c :: rest).drop pre.length
      let name := afterPre.takeWhile isWordChar
      if name ≠ [] ∧ post.isPrefixOf (afterPre.drop name.length) then some name
      else Option.none
    else Option.none).orElse (fun _ => findNameBetween pre post rest)

/-- The corrective example text of the `generate_series_misuse` branch
(sql_validator.py:127-139). -/
def genSeriesExample : String :=
  "\n正确的写法：\nWITH expected AS (\n    SELECT entity_id, \n           generate_series(start_date, end_date, '1 month'::interval) AS month\n    FROM base_table\n)\nSELECT * FROM expected WHERE condition;\n\n错误的写法：\nSELECT * FROM base_table \nWHERE generate_series(...);  -- 这是错误的！\n"

/-- `SQLValidator.analyze_execution_error` (sql_validator.py:103-195).
A pure function of the failed SQL and the raw error message. -/
def analyzeExecutionError (_sql : String) (errorMessage : String) : ErrorAnalysis :=
  let errorLower := toLowerL errorMessage.data
  if containsSub "set-returning functions are not allowed in where".data errorLower then
    { error_type := "generate_series_misuse"
      diagnosis := "generate_series等集合返回函数不能直接在WHERE子句中使用"
      root_cause := "PostgreSQL不允许在WHERE、HAVING等子句中直接调用返回集合的函数"
      fix_strategy := "使用CTE（WITH子句）重构查询"
      exampleText := some genSeriesExample
      next_step := "重新生成SQL，将generate_series移到CTE中" }
  else if containsSub "relation".data errorLower &&
      containsSub "does not exist".data errorLower then
    let tableName :=
      match findNameBetween "relation \"".data "\" does not exist".data
          errorMessage.data with
      | some n => String.mk n
      | Option.none => "unknown"
    { error_type := "table_not_found"
      diagnosis := "表 \"" ++ tableName ++ "\" 不存在"
      root_cause := "可能使用了错误的表名或未正确引用Schema中的表"
      fix_strategy := "检查Schema文档，使用正确的表名"
      next_step := "重新生成SQL，确认表名是否正确（当前使用: " ++ tableName ++ "）" }
  else if containsSub "column".data errorLower &&
      containsSub "does not exist".data errorLower then
    let columnName :=
      match findNameBetween "column \"".data "\" does not exist".data
          errorMessage.data with
      | some n => String.mk n
      | Option.none => "unknown"
    { error_type := "column_not_found"
      diagnosis := "列 \"" ++ columnName ++ "\" 不存在"
      root_cause := "可能使用了错误的列名或该列不在当前表中"
      fix_strategy := "检查Schema文档中的表结构，使用正确的列名"
      next_step := "重新生成SQL，确认列名是否正确（当前使用: " ++ columnName ++ "）" }
  else if containsSub "syntax error".data errorLower then
    { error_type := "syntax_error"
      diagnosis := "SQL语法错误"
      root_cause := "SQL语句不符合PostgreSQL语法规范"
      fix_strategy := "检查SQL语法，特别注意关键字拼写、括号匹配、逗号位置"
      next_step := "仔细检查SQL语法，重新生成正确的SQL" }
  else if containsSub "must appear in the group by".data errorLower then
    { error_type := "groupby_error"
      diagnosis := "GROUP BY子句缺少必要的列"
      root_cause := "SELECT中的非聚合列必须出现在GROUP BY子句中"
      fix_strategy := "将所有非聚合列添加到GROUP BY，或对这些列使用聚合函数"
      next_step := "修改SQL，确保所有非聚合列都在GROUP BY中" }
  else
    { error_type := "unknown_error"
      diagnosis := "数据库执行错误"
      root_cause := errorMessage
      fix_strategy := "根据错误信息分析并修正SQL"
      next_step := "重新分析问题需求，生成新的SQL" }

example :
    (analyzeExecutionError "SELECT 1" "relation \"foo\" does not exist").error_type
      = "table_not_found" := by decide

example :
    (analyzeExecutionError "SELECT 1" "relation \"foo\" does not exist").diagnosis
      = "表 \"foo\" 不存在" := by decide

/-! ## `SQLExecutor.execute` (src/erp_agent/core/sql_executor.py:63-158)

The database call is an oracle mapping the SQL text to either a row list,
a `psycopg2.Error` message or a generic exception message.  The wall-clock
`execution_time` is not modelled (left `0`). -/

/-- The execution-result record produced by `SQLExecutor.execute` (and
consumed by the orchestrator). -/
structure ExecResult where
  success : Bool
  data : List Row
  columns : List String
  row_count : Nat
  execution_time : ℚ := 0
  error : Option String
  sql : String

/-- Outcome of the underlying database call. -/
inductive DbOutcome where
  | ok (rows : List Row)
  | dbError (msg : String)
  | otherError (msg : String)

/-- `SQLExecutor._format_db_error` (sql_executor.py:231-253). -/
def formatDbError (timeoutSec : Nat) (raw : String) : String :=
  let m := String.mk (stripL raw.data)
  let lower := toLowerL m.data
  if containsSub "syntax error".data lower then "SQL语法错误: " ++ m
  else if containsSub "does not exist".data lower then "表或字段不存在: " ++ m
  else if containsSub "permission denied".data lower then "权限不足: " ++ m
  else if containsSub "timeout".data lower ||
      containsSub "canceling statement".data lower then
    "查询超时（超过" ++ toString timeoutSec ++ "秒）: " ++ m
  else "数据库错误: " ++ m

/-- `SQLExecutor.execute` (sql_executor.py:63-158).  `none` means the call
never returns (the validation loop does not terminate within `fuel`). -/
def executeSql (fuel maxRows timeoutSec : Nat) (db : String → DbOutcome)
    (sql : String) : Option ExecResult :=
  let base : ExecResult :=
    { success := false, data := [], columns := [], row_count := 0
      execution_time := 0, error := none, sql := String.mk (stripL sql.data) }
  match validateSql fuel sql.data with
  | Option.none => Option.none
  | some (false, msg) =>
    some { base with error := some ("SQL验证失败: " ++ msg.getD "None") }
  | some (true, _) =>
    match db sql with
    | .ok rows =>
      let rows' := if rows.length > maxRows then rows.take maxRows else rows
      some { base with
             data := rows'
             columns := (match rows' with | r :: _ => r.map Prod.fst | [] => [])
             row_count := rows'.length
             success := true }
    | .dbError m => some { base with error := some (formatDbError timeoutSec m) }
    | .otherError m => some { base with error := some ("执行错误: " ++ m) }

/-! ## `ResultAnalyzer.extract_answer_from_result`
(src/erp_agent/core/result_analyzer.py:1155-1188) — the cheap single-scalar
extraction used by the fallback answer path. -/

/-- `ResultAnalyzer.extract_answer_from_result` (result_analyzer.py:1155-1188). -/
def extractAnswerFromResult (r : ExecResult) : Option String :=
  if r.row_count = 1 ∧ ¬ r.data.isEmpty then
    match r.data with
    | row :: _ =>
      if row.length = 1 then
        match row with
        | (col, val) :: _ =>
          if isNumericPy val then
            if containsSub "count".data (toLowerL col.data) then
              some ("共有 " ++ toString (pyIntOfNum val) ++ " 条记录。")
            else Option.none
          else Option.none
        | [] => Option.none
      else Option.none
    | [] => Option.none
  else Option.none

/-! ## The Query Orchestrator — `ERPAgent.query` and `ERPAgent.query_stream`
(src/erp_agent/core/agent.py:117-462 and 464-753)

The four external collaborators are oracles:
  * generation (`SQLGenerator.generate`) — one response per iteration;
  * execution (`SQLExecutor.execute`) — at most one call per iteration,
    indexed by the iteration number;
  * sufficiency judgment (`ResultAnalyzer.analyze_result`) — at most one
    call per iteration; a `.error` response models the
    `except Exception` branch around the judgment (agent.py:349, 650);
  * answer synthesis (`generate_final_answer_from_full_result`) and the
    fallback `SQLGenerator.generate_answer` — each called at most once per
    query (both catch their own exceptions internally and return strings).

The error-feedback string built by `_get_error_feedback` is part of the
input handed to the generation collaborator; since the claims fix the whole
response sequence, it does not influence the oracle's answers. -/

/-- A response of the generation collaborator (the dict returned by
`SQLGenerator.generate`; field access via `.get` with the agent's
defaults). -/
structure GenResult where
  thought : String := ""
  action : String
  sql : Option String := none
  answer : Option String := none
  is_final : Bool := false
  error : Option String := none

/-- A response of the sufficiency-judgment collaborator — only the fields
the orchestrator reads (`next_action` and `suggestion`). -/
structure Analysis where
  next_action : String
  suggestion : String := ""

/-- The fixed collaborator response sequences one query runs against. -/
structure Oracles where
  gen : Nat → GenResult
  exec : Nat → ExecResult
  judge : Nat → Except Unit Analysis
  synth : String
  fallbackAnswer : String

/-- The `result` field of a context entry: either a full execution result
(agent.py:246-252) or the two-field rejection record written when the SQL
validator refuses the statement (agent.py:232-235). -/
inductive EntryResult where
  | exec (r : ExecResult)
  | validationFail (error : String)

/-- One entry of the per-query context log (a loosely-typed dict in the
source; the optional fields mirror the keys that are present on each of
the append sites). -/
structure ContextEntry where
  iteration : Nat
  thought : String := ""
  action : String := ""
  sql : Option String := none
  result : Option EntryResult := none
  validation_feedback : Option String := none
  error_analysis : Option ErrorAnalysis := none
  final_answer : Option String := none
  answer : Option String := none

/-- `AgentState` (agent.py:29-42), plus `appendedLog`: a ghost audit list
recording every context entry exactly as it was appended (before any
later in-place mutation), used to state the append-only claim. -/
structure AgentState where
  iteration : Nat := 0
  context : List ContextEntry := []
  final_answer : Option String := none
  success : Bool := false
  error : Option String := none
  appendedLog : List ContextEntry := []

/-- Append a context entry (also records it in the ghost audit log). -/
def appendEntry (s : AgentState) (e : ContextEntry) : AgentState :=
  { s with context := s.context ++ [e], appendedLog := s.appendedLog ++ [e] }

/-- In-place mutation of the most recent context entry
(`state.context[-1][...] = ...`). -/
def updateLast (f : ContextEntry → ContextEntry) :
    List ContextEntry → List ContextEntry
  | [] => []
  | [e] => [f e]
  | e :: rest => e :: updateLast f rest

/-- Loop control after one iteration body. -/
inductive Ctl where
  | brk
  | cont
deriving DecidableEq, Repr

/-- Python string-truthiness of an optional string
(`None` and `""` are falsy). -/
def truthyOptStr : Option String → Bool
  | some s => s ≠ ""
  | Option.none => false

/-- What an f-string renders for an optional value (`None` when absent). -/
def pyStrOpt : Option String → String
  | some s => s
  | Option.none => "None"

/-- The `is_final` check at the end of a loop pass (agent.py:409-414,
704-709); reached only by paths that neither `break` nor `continue`. -/
def afterIsFinal (g : GenResult) (s : AgentState) : AgentState × Ctl :=
  if g.is_final then
    (if ¬ truthyOptStr s.final_answer ∧ g.action = "answer" then
      { s with final_answer := some (g.answer.getD ""), success := true }
    else s, .brk)
  else (s, .cont)

/-- The generation-error branch (agent.py:176-185; identical in the
streaming variant, agent.py:522-534): abort on iteration 1 with the
reported error as terminal error, silently continue on any later
iteration. -/
def genErrorBranch (g : GenResult) (s : AgentState) : AgentState × Ctl :=
  if s.iteration = 1 then
    ({ s with error := some (g.error.getD "生成失败") }, .brk)
  else (s, .cont)

/-- The context entry appended when the validator rejects the proposed SQL
(agent.py:227-237). -/
def rejectionEntry (iter : Nat) (g : GenResult) (sql : String)
    (v : ValidationResult) : ContextEntry :=
  { iteration := iter, thought := g.thought, action := g.action
    sql := some sql
    result := some (.validationFail ("SQL验证失败: " ++ pyStrOpt v.error_message))
    validation_feedback := some
      ("你生成的SQL未通过验证检查:
SQL: " ++ sql ++
       "

验证失败原因: " ++ pyStrOpt v.error_message ++
       "
修复建议: " ++ pyStrOpt v.suggestion ++
       "

请仔细检查SQL语法，重新生成正确的SQL。") }

/-- The context entry appended for an attempted execution
(agent.py:246-252, 584-590). -/
def execEntry (iter : Nat) (g : GenResult) (sql : String)
    (ex : ExecResult) : ContextEntry :=
  { iteration := iter, thought := g.thought, action := g.action
    sql := some sql, result := some (.exec ex) }

/-- The judgment step after a successful execution (agent.py:290-372; the
streaming variant agent.py:601-668 performs the same state updates): ask
the sufficiency-judgment collaborator; on `generate_answer` synthesize the
final answer from the full result, record it (also on the last context
entry) and stop; on any other verdict fall through to the `is_final`
check; if the judgment call raises, degrade to direct synthesis when the
result has rows, else fall through. -/
def judgeBranch (o : Oracles) (g : GenResult) (s : AgentState)
    (ex : ExecResult) : AgentState × Ctl :=
  match o.judge s.iteration with
  | .ok analysis =>
    if analysis.next_action = "generate_answer" then
      let finalAnswer := o.synth
      let s := { s with final_answer := some finalAnswer, success := true }
      let ctx := updateLast (fun e => { e with final_answer := some finalAnswer })
        s.context
      ({ s with context := ctx }, .brk)
    else afterIsFinal g s
  | .error _ =>
    if ex.row_count > 0 then
      ({ s with final_answer := some o.synth, success := true }, .brk)
    else afterIsFinal g s

/-- The direct-answer branch (agent.py:374-403; identical in the streaming
variant, agent.py:672-702). -/
def answerBranch (g : GenResult) (s : AgentState) : AgentState × Ctl :=
  let answer := g.answer.getD ""
  if answer = "" then (s, .cont)
  else
    let s := { s with final_answer := some answer, success := true }
    (appendEntry s
      { iteration := s.iteration, thought := g.thought, action := g.action
        answer := some answer }, .brk)

/-- The `execute_sql` branch of the synchronous loop (agent.py:195-372):
validate first; on rejection append the rejection entry and continue
without executing; on acceptance execute, append the entry, and on failure
classify the error and attach the diagnosis to the just-appended entry. -/
def syncExecBranch (o : Oracles) (g : GenResult) (s : AgentState) :
    AgentState × Ctl :=
  let sql := g.sql.getD ""
  if sql = "" then (s, .cont)
  else
    let v := sqlValidatorValidate sql.data
    if v.is_valid = false then
      (appendEntry s (rejectionEntry s.iteration g sql v), .cont)
    else
      let ex := o.exec s.iteration
      let s := appendEntry s (execEntry s.iteration g sql ex)
      if ex.success = false then
        let ea := analyzeExecutionError sql (pyStrOpt ex.error)
        let ctx := updateLast (fun e => { e with error_analysis := some ea })
          s.context
        afterIsFinal g { s with context := ctx }
      else judgeBranch o g s ex

/-- The `execute_sql` branch of the streaming loop (agent.py:555-670):
no pre-execution validation, and no `error_analysis` attachment on
execution failure. -/
def streamExecBranch (o : Oracles) (g : GenResult) (s : AgentState) :
    AgentState × Ctl :=
  let sql := g.sql.getD ""
  if sql = "" then (s, .cont)
  else
    let ex := o.exec s.iteration
    let s := appendEntry s (execEntry s.iteration g sql ex)
    if ex.success then judgeBranch o g s ex
    else afterIsFinal g s

/-- One pass of the synchronous orchestration loop (`ERPAgent.query`,
agent.py:162-414), after the loop guard has admitted the pass.  An unknown
action is logged and the loop continues. -/
def syncStep (o : Oracles) (s0 : AgentState) : AgentState × Ctl :=
  let s := { s0 with iteration := s0.iteration + 1 }
  let g := o.gen s.iteration
  if g.action = "error" then genErrorBranch g s
  else if g.action = "execute_sql" then syncExecBranch o g s
  else if g.action = "answer" then answerBranch g s
  else (s, .cont)

/-- One pass of the streaming orchestration loop (`ERPAgent.query_stream`,
agent.py:503-709).  Unlike the synchronous pass, an unknown action falls
through to the `is_final` check instead of continuing directly. -/
def streamStep (o : Oracles) (s0 : AgentState) : AgentState × Ctl :=
  let s := { s0 with iteration := s0.iteration + 1 }
  let g := o.gen s.iteration
  if g.action = "error" then genErrorBranch g s
  else if g.action = "execute_sql" then streamExecBranch o g s
  else if g.action = "answer" then answerBranch g s
  else afterIsFinal g s

/-- The `while state.iteration < max_iterations` loop (agent.py:162,
503).  The fuel starts at `maxIter`; since every pass increments the
iteration counter by one, this exactly reproduces the `while` loop. -/
def runLoop (step : Oracles → AgentState → AgentState × Ctl) (o : Oracles)
    (maxIter : Nat) : Nat → AgentState → AgentState
  | 0, s => s
  | fuel + 1, s =>
    if s.iteration < maxIter then
      match step o s with
      | (s', .brk) => s'
      | (s', .cont) => runLoop step o maxIter fuel s'
    else s

/-- `'result' in item and item['result'].get('success', False)` for one
context entry (agent.py:808): a validator-rejection record carries
`success: False`. -/
def entrySuccess (item : ContextEntry) : Bool :=
  match item.result with
  | some (.exec r) => r.success
  | some (.validationFail _) => false
  | Option.none => false

/-- `ERPAgent._has_successful_query` (agent.py:797-810). -/
def hasSuccessfulQuery (context : List ContextEntry) : Bool :=
  context.any entrySuccess

/-- `ERPAgent._generate_fallback_answer` (agent.py:812-850). -/
def generateFallbackAnswer (o : Oracles) (context : List ContextEntry) : String :=
  let sqlHistory := context.filterMap fun item =>
    match item.result with
    | some (.exec r) => if r.success then some (item.sql.getD "", r) else Option.none
    | _ => Option.none
  match sqlHistory.getLast? with
  | some (_, lastResult) =>
    match extractAnswerFromResult lastResult with
    | some simpleAnswer =>
      if simpleAnswer ≠ "" then simpleAnswer else o.fallbackAnswer
    | Option.none => o.fallbackAnswer
  | Option.none => "抱歉，无法回答该问题。"

/-- Post-loop finalization of the synchronous path (agent.py:419-437).
`_generate_fallback_answer` never raises in the model (its callees catch
their own exceptions and return strings), so the `except` of
agent.py:432-433 has no counterpart. -/
def syncFinalize (o : Oracles) (maxIter : Nat) (s : AgentState) : AgentState :=
  if s.success = false then
    if s.iteration ≥ maxIter then
      let budgetMsg := "达到最大迭代次数 (" ++ toString maxIter ++ ")，未能完成查询"
      let s := { s with error := some budgetMsg }
      if !s.context.isEmpty ∧ hasSuccessfulQuery s.context then
        { s with final_answer := some (generateFallbackAnswer o s.context),
                 success := true, error := none }
      else s
    else if truthyOptStr s.error then s
    else { s with error := some "未知错误" }
  else s

/-- Post-loop finalization of the streaming path (agent.py:714-727).
Note the budget-exceeded message differs from the synchronous one, and
there is no `未知错误` default branch. -/
def streamFinalize (o : Oracles) (maxIter : Nat) (s : AgentState) : AgentState :=
  if s.success = false then
    if s.iteration ≥ maxIter then
      let budgetMsg := "达到最大迭代次数 (" ++ toString maxIter ++ ")"
      let s := { s with error := some budgetMsg }
      if !s.context.isEmpty ∧ hasSuccessfulQuery s.context then
        { s with final_answer := some (generateFallbackAnswer o s.context),
                 success := true, error := none }
      else s
    else s
  else s

/-- The result dictionary of `ERPAgent.query` (agent.py:440-447) — and,
field for field, the payload of the `final` event of
`ERPAgent.query_stream` (agent.py:730-739) restricted to the five fields
the two shapes share (`total_time` and the event `timestamp` are wall-clock
values outside the model). -/
structure QueryResult where
  success : Bool
  answer : String
  iterations : Nat
  context : List ContextEntry
  error : Option String

/-- `state.final_answer or "抱歉，无法回答该问题。"` plus the surrounding
result construction (agent.py:440-447, 730-739). -/
def buildResult (s : AgentState) : QueryResult :=
  { success := s.success
    answer := match s.final_answer with
      | some a => if a = "" then "抱歉，无法回答该问题。" else a
      | Option.none => "抱歉，无法回答该问题。"
    iterations := s.iteration
    context := s.context
    error := s.error }

/-- State after the synchronous loop and finalization. -/
def syncFinalState (o : Oracles) (maxIter : Nat) : AgentState :=
  syncFinalize o maxIter (runLoop syncStep o maxIter maxIter {})

/-- `ERPAgent.query` (agent.py:117-462).  The model has no spontaneous
internal exceptions, so the outermost `except` (agent.py:457-462) has no
counterpart. -/
def query (o : Oracles) (maxIter : Nat) : QueryResult :=
  buildResult (syncFinalState o maxIter)

/-- State after the streaming loop and finalization. -/
def streamFinalState (o : Oracles) (maxIter : Nat) : AgentState :=
  streamFinalize o maxIter (runLoop streamStep o maxIter maxIter {})

/-- The payload of the `final` event yielded by `ERPAgent.query_stream`
(agent.py:464-753), restricted to the five shared fields. -/
def queryStream (o : Oracles) (maxIter : Nat) : QueryResult :=
  buildResult (streamFinalState o maxIter)

/-! ## Concrete fixtures used by the counterexample and witness theorems -/

/-- A generation response with an action the orchestrator does not know. -/
def noopGen : GenResult := { action := "noop" }

/-- A generation response reporting a generation error. -/
def errorGen : GenResult := { action := "error", error := some "生成服务超时" }

/-- A generation response proposing SQL execution. -/
def execGen (s : String) : GenResult := { action := "execute_sql", sql := some s }

/-- A generation response carrying a direct answer. -/
def answerGen (a : String) : GenResult := { action := "answer", answer := some a }

/-- A failing execution response (database syntax error). -/
def failingExec : ExecResult :=
  { success := false, data := [], columns := [], row_count := 0
    error := some "SQL语法错误: syntax error at or near \"FORM\"", sql := "SELECT 1" }

/-- A successful one-row execution response with a single count column. -/
def countExec : ExecResult :=
  { success := true, data := [[("count", PyVal.int 7)]], columns := ["count"]
    row_count := 1, error := none, sql := "SELECT COUNT(*) FROM t" }

/-- Baseline oracle assignment: unknown generation action everywhere. -/
def oracleNoop : Oracles :=
  { gen := fun _ => noopGen
    exec := fun _ => failingExec
    judge := fun _ => .error ()
    synth := "合成答案"
    fallbackAnswer := "备用答案" }

/-- Oracles for the C5 counterexample: an unknown action on iteration 1,
then a generation error on iteration 2. -/
def oracleC5 : Oracles :=
  { oracleNoop with gen := fun i => if i = 2 then errorGen else noopGen }

/-- Oracles for the C4 counterexample: a validator-accepted SQL proposal
whose execution fails. -/
def oracleC4 : Oracles :=
  { oracleNoop with gen := fun _ => execGen "SELECT 1" }

/-- Oracles for the C7 witness: every iteration proposes SQL that the
structural validator rejects (`WITH x` contains no `SELECT`). -/
def oracleC7 : Oracles :=
  { oracleNoop with gen := fun _ => execGen "WITH x" }

/-- Oracles for the C1 witness: a well-behaved run (validator-accepted SQL,
successful execution, judgment finalizes). -/
def oracleGood : Oracles :=
  { gen := fun _ => execGen "SELECT COUNT(*) FROM employees"
    exec := fun _ => countExec
    judge := fun _ => .ok { next_action := "generate_answer" }
    synth := "共有 7 名员工。"
    fallbackAnswer := "备用答案" }

/-- Oracles whose generation reports an error on every iteration. -/
def oracleErr1 : Oracles :=
  { oracleNoop with gen := fun _ => errorGen }

/-- A 1000-row result set (C2 counterexample input). -/
def rows1000 : List Row := List.replicate 1000 [("x", PyVal.int 0)]

/-- A malformed analysis record (C8 witness input): `next_action` has a
non-string type and sufficiency is the string `"yes"`. -/
def malformedAnalysis : List (String × PyVal) :=
  [("next_action", PyVal.int 5), ("is_sufficient", PyVal.str "yes"),
   ("completeness", PyVal.str "not a number")]

/-- The immutable core of a context entry: every field except the two
that the orchestrator fills in after the append (`error_analysis`,
agent.py:274, and `final_answer`, agent.py:333). -/
def entryCore (e : ContextEntry) : ContextEntry :=
  { e with error_analysis := none, final_answer := none }

/-- A generation response proposing non-empty SQL that the structural
validator rejects (the Safety-Gate-rejected proposals of the C7
scenario). -/
def rejectedProposal (g : GenResult) : Prop :=
  g.action = "execute_sql" ∧ g.sql.getD "" ≠ "" ∧
  (sqlValidatorValidate (g.sql.getD "").data).is_valid = false

/-- A well-behaved generation response at call index `i`: either a
non-empty direct answer, or non-empty SQL that passes the structural
validator, is not flagged `is_final`, and whose execution succeeds.  On
such runs the synchronous and streaming paths stay in lockstep. -/
def wellBehavedGen (o : Oracles) (i : Nat) : Prop :=
  (((o.gen i).action = "answer" ∧ (o.gen i).answer.getD "" ≠ "") ∨
   ((o.gen i).action = "execute_sql" ∧ (o.gen i).sql.getD "" ≠ "" ∧
    (sqlValidatorValidate ((o.gen i).sql.getD "").data).is_valid = true ∧
    (o.gen i).is_final = false ∧ (o.exec i).success = true))

/-- The family of strings `"*/" ++ spaces k ++ "/*"` traversed by the
diverging block-comment removal loop: one splice pass maps the `k`-th
member to the `2k+1`-st (`spliceFam`). -/
def famK (k : Nat) : List Char :=
  '*' :: '/' :: (List.replicate k ' ' ++ ['/', '*'])

/-! # Theorems -/

/-! ## C2 — Result Data Packager -/

/-- C2, counterexample.  The claim asserts that for an input row count of
1000 the Result Data Packager passes only the first 500 rows.  On a
concrete 1000-row result set, `_smart_sample_data_for_answer` returns all
1000 rows (it performs no truncation at all), so the packaged row count is
1000, not 500. -/
theorem claim_C2_counterexample :
    (smartSampleDataForAnswer rows1000 1000).1.length = 1000 ∧
    (smartSampleDataForAnswer rows1000 1000).1.length ≠ 500 := by
  have h : (smartSampleDataForAnswer rows1000 1000).1.length = 1000 := by
    unfold smartSampleDataForAnswer rows1000
    norm_num
  exact ⟨h, by rw [h]; norm_num⟩

/-- C2, amended.  The Result Data Packager
(`ResultAnalyzer._smart_sample_data_for_answer`) passes every result set
through unchanged regardless of its row count; when the reported row count
is positive it attaches an annotation stating the total row count, and for
a non-positive row count the annotation is empty.  In particular the
packaged row counts for inputs of 200, 500, 1000 and 5000 rows are 200,
500, 1000 and 5000. -/
theorem claim_C2_amended (data : List Row) (rc : Int) :
    (smartSampleDataForAnswer data rc).1 = data ∧
    (0 < rc → (smartSampleDataForAnswer data rc).2 =
      "\n⚠️ 注意：数据共 " ++ toString rc ++ " 行，已全部提供") ∧
    (rc ≤ 0 → (smartSampleDataForAnswer data rc).2 = "") := by
  refine ⟨?_, ?_, ?_⟩
  · unfold smartSampleDataForAnswer
    split <;> rfl
  · intro h
    unfold smartSampleDataForAnswer
    split
    · omega
    · rfl
  · intro h
    unfold smartSampleDataForAnswer
    split
    · rfl
    · omega

/-- C2, witness for the amended theorem at the concrete 1000-row input. -/
theorem claim_C2_witness :
    (smartSampleDataForAnswer rows1000 1000).1 = rows1000 ∧
    (0 : Int) < 1000 ∧
    (smartSampleDataForAnswer rows1000 1000).2 =
      "\n⚠️ 注意：数据共 " ++ toString (1000 : Int) ++ " 行，已全部提供" :=
  ⟨(claim_C2_amended rows1000 1000).1, by norm_num,
   (claim_C2_amended rows1000 1000).2.1 (by norm_num)⟩

/-! ## C8 — Sufficiency Decision Protocol normalization -/

/-- C8.  For every input record handed to
`ResultAnalyzer._validate_and_fix_analysis` — including records with
missing fields, wrongly typed fields or out-of-range completeness values —
the normalized `next_action` is one of `generate_answer`, `continue_query`,
`retry_query`; and whenever the incoming `next_action` value is not one of
those three, it is re-derived as `generate_answer` when the coerced
sufficiency boolean is true and as `continue_query` otherwise. -/
theorem claim_C8 (d : List (String × PyVal)) :
    ((validateAndFixAnalysis d).next_action = "generate_answer" ∨
     (validateAndFixAnalysis d).next_action = "continue_query" ∨
     (validateAndFixAnalysis d).next_action = "retry_query") ∧
    (isValidAction (dictGet d "next_action" (PyVal.str "continue_query")) = false →
      (validateAndFixAnalysis d).next_action =
        if (validateAndFixAnalysis d).is_sufficient then "generate_answer"
        else "continue_query") := by
  have hna : (validateAndFixAnalysis d).next_action =
      if isValidAction (dictGet d "next_action" (PyVal.str "continue_query")) = true then
        (match dictGet d "next_action" (PyVal.str "continue_query") with
         | .str s => s
         | _ => "")
      else if (validateAndFixAnalysis d).is_sufficient then "generate_answer"
      else "continue_query" := rfl
  constructor
  · rw [hna]
    by_cases h : isValidAction (dictGet d "next_action" (PyVal.str "continue_query")) = true
    · rw [if_pos h]
      rcases hv : dictGet d "next_action" (PyVal.str "continue_query") with
        _ | b | n | q | str | xs | kvs <;> rw [hv] at h <;>
        simp [isValidAction, validActions] at h
      rcases h with h | h | h <;> simp [h]
    · rw [if_neg h]
      split
      · exact Or.inl rfl
      · exact Or.inr (Or.inl rfl)
  · intro h
    rw [hna, if_neg (by simp [h])]

/-- C8, witness at a concrete malformed record: `next_action` is an
integer (not one of the three actions), sufficiency is the string
`"yes"` (coerced to true), completeness is unparsable. -/
theorem claim_C8_witness :
    isValidAction (dictGet malformedAnalysis "next_action"
      (PyVal.str "continue_query")) = false ∧
    (validateAndFixAnalysis malformedAnalysis).next_action = "generate_answer" := by
  constructor
  · decide
  · have h := (claim_C8 malformedAnalysis).2 (by decide)
    rw [h]
    decide

/-! ## Step lemmas for the orchestration loops -/

theorem afterIsFinal_iteration (g : GenResult) (s : AgentState) :
    (afterIsFinal g s).1.iteration = s.iteration := by
  unfold afterIsFinal
  repeat' split
  all_goals rfl

theorem judgeBranch_iteration (o : Oracles) (g : GenResult) (s : AgentState)
    (ex : ExecResult) : (judgeBranch o g s ex).1.iteration = s.iteration := by
  unfold judgeBranch
  rcases o.judge s.iteration with _ | a <;> dsimp only <;> split
  · rfl
  · exact afterIsFinal_iteration g s
  · rfl
  · exact afterIsFinal_iteration g s

theorem syncStep_iteration (o : Oracles) (s : AgentState) :
    (syncStep o s).1.iteration = s.iteration + 1 := by
  unfold syncStep genErrorBranch syncExecBranch answerBranch appendEntry
  dsimp only
  repeat' split
  all_goals first
    | rfl
    | apply afterIsFinal_iteration
    | apply judgeBranch_iteration

theorem streamStep_iteration (o : Oracles) (s : AgentState) :
    (streamStep o s).1.iteration = s.iteration + 1 := by
  unfold streamStep genErrorBranch streamExecBranch answerBranch appendEntry
  dsimp only
  repeat' split
  all_goals first
    | rfl
    | apply afterIsFinal_iteration
    | apply judgeBranch_iteration

theorem syncFinalize_iteration (o : Oracles) (m : Nat) (s : AgentState) :
    (syncFinalize o m s).iteration = s.iteration := by
  unfold syncFinalize
  dsimp only
  repeat' split
  all_goals rfl

theorem streamFinalize_iteration (o : Oracles) (m : Nat) (s : AgentState) :
    (streamFinalize o m s).iteration = s.iteration := by
  unfold streamFinalize
  dsimp only
  repeat' split
  all_goals rfl

/-- The loop guard bounds the iteration counter for any step function that
increments it by exactly one per pass. -/
theorem runLoop_iteration_le (step : Oracles → AgentState → AgentState × Ctl)
    (hstep : ∀ o s, (step o s).1.iteration = s.iteration + 1)
    (o : Oracles) (maxIter : Nat) :
    ∀ (fuel : Nat) (s : AgentState), s.iteration ≤ maxIter →
      (runLoop step o maxIter fuel s).iteration ≤ maxIter := by
  intro fuel
  induction fuel with
  | zero => intro s h; exact h
  | succ n ih =>
    intro s h
    unfold runLoop
    split
    · rcases hs : step o s with ⟨s', ctl⟩
      have hi : s'.iteration = s.iteration + 1 := by
        have h' := hstep o s
        rw [hs] at h'
        exact h'
      rename_i hguard
      cases ctl
      · dsimp only
        omega
      · dsimp only
        exact ih s' (by omega)
    · exact h

/-! ## C9 — termination within the iteration budget -/

/-- C9.  For every sequence of collaborator responses — including one in
which the judgment always answers `continue_query` — both orchestration
loops stop after at most the configured maximum number of iterations (in
the embedding the loop is structurally bounded by the same guard
`iteration < max_iterations` as the source), and the iteration count
reported in the result (by either variant) never exceeds the budget. -/
theorem claim_C9 (o : Oracles) (maxIter : Nat) :
    (query o maxIter).iterations ≤ maxIter ∧
    (queryStream o maxIter).iterations ≤ maxIter := by
  constructor
  · show (syncFinalize o maxIter (runLoop syncStep o maxIter maxIter {})).iteration ≤ maxIter
    rw [syncFinalize_iteration]
    exact runLoop_iteration_le syncStep syncStep_iteration o maxIter maxIter {}
      (Nat.zero_le _)
  · show (streamFinalize o maxIter (runLoop streamStep o maxIter maxIter {})).iteration ≤ maxIter
    rw [streamFinalize_iteration]
    exact runLoop_iteration_le streamStep streamStep_iteration o maxIter maxIter {}
      (Nat.zero_le _)

/-! ## C4 — append-only context log -/

/-- Mutations that only touch the two post-append fields leave the core of
every entry unchanged. -/
theorem updateLast_map_core (f : ContextEntry → ContextEntry)
    (hf : ∀ e, entryCore (f e) = entryCore e) :
    ∀ l : List ContextEntry, (updateLast f l).map entryCore = l.map entryCore
  | [] => rfl
  | [e] => by simp [updateLast, hf]
  | e :: e2 :: r => by
    have ih := updateLast_map_core f hf (e2 :: r)
    simp only [updateLast, List.map_cons]
    rw [show updateLast f (e2 :: r) = updateLast f (e2 :: r) from rfl]
    simp only [List.map_cons] at ih
    simp [ih]

/-- The append-only invariant: the retained log and the as-appended ghost
log agree on every entry core, and appended entries carry no
`error_analysis`/`final_answer` yet. -/
def c4inv (s : AgentState) : Prop :=
  s.context.map entryCore = s.appendedLog.map entryCore ∧
  s.appendedLog.all (fun e => e.error_analysis.isNone && e.final_answer.isNone) = true

theorem c4inv_append {s : AgentState} {e : ContextEntry} (h : c4inv s)
    (he : e.error_analysis = none) (hf : e.final_answer = none) :
    c4inv (appendEntry s e) := by
  obtain ⟨h1, h2⟩ := h
  refine ⟨?_, ?_⟩
  · show (s.context ++ [e]).map entryCore = (s.appendedLog ++ [e]).map entryCore
    simp [h1]
  · show (s.appendedLog ++ [e]).all _ = true
    simp [List.all_append, h2, he, hf]

theorem c4inv_updateLast_ea {s : AgentState} (ea : ErrorAnalysis) (h : c4inv s) :
    c4inv { s with context := updateLast (fun e => { e with error_analysis := some ea }) s.context } := by
  refine ⟨?_, h.2⟩
  show (updateLast _ s.context).map entryCore = s.appendedLog.map entryCore
  rw [updateLast_map_core (fun e => { e with error_analysis := some ea }) (fun e => rfl)]
  exact h.1

theorem c4inv_updateLast_fa {s : AgentState} (fa : String) (h : c4inv s) :
    c4inv { s with context := updateLast (fun e => { e with final_answer := some fa }) s.context } := by
  refine ⟨?_, h.2⟩
  show (updateLast _ s.context).map entryCore = s.appendedLog.map entryCore
  rw [updateLast_map_core (fun e => { e with final_answer := some fa }) (fun e => rfl)]
  exact h.1

theorem c4inv_afterIsFinal {g : GenResult} {s : AgentState} (h : c4inv s) :
    c4inv (afterIsFinal g s).1 := by
  unfold afterIsFinal
  repeat' split
  all_goals exact h

theorem c4inv_judgeBranch {o : Oracles} {g : GenResult} {s : AgentState}
    {ex : ExecResult} (h : c4inv s) : c4inv (judgeBranch o g s ex).1 := by
  unfold judgeBranch
  rcases o.judge s.iteration with _ | a <;> dsimp only <;> split
  · exact h
  · exact c4inv_afterIsFinal h
  · exact c4inv_updateLast_fa _ h
  · exact c4inv_afterIsFinal h

theorem c4inv_syncStep (o : Oracles) (s : AgentState) (h : c4inv s) :
    c4inv (syncStep o s).1 := by
  have hbump : c4inv { s with iteration := s.iteration + 1 } := h
  unfold syncStep
  dsimp only
  split
  · unfold genErrorBranch
    dsimp only
    split
    · exact hbump
    · exact hbump
  · split
    · unfold syncExecBranch
      dsimp only
      split
      · exact hbump
      · split
        · exact c4inv_append hbump rfl rfl
        · split
          · exact c4inv_afterIsFinal (c4inv_updateLast_ea _ (c4inv_append hbump rfl rfl))
          · exact c4inv_judgeBranch (c4inv_append hbump rfl rfl)
    · split
      · unfold answerBranch
        dsimp only
        split
        · exact hbump
        · exact c4inv_append hbump rfl rfl
      · exact hbump

theorem c4inv_runLoop (o : Oracles) (m : Nat) :
    ∀ (fuel : Nat) (s : AgentState), c4inv s →
      c4inv (runLoop syncStep o m fuel s)
  | 0, s, h => h
  | fuel + 1, s, h => by
    unfold runLoop
    split
    · rcases hs : syncStep o s with ⟨s', ctl⟩
      have h' : c4inv s' := by
        have := c4inv_syncStep o s h
        rw [hs] at this
        exact this
      cases ctl
      · exact h'
      · exact c4inv_runLoop o m fuel s' h'
    · exact h

theorem c4inv_syncFinalize (o : Oracles) (m : Nat) (s : AgentState)
    (h : c4inv s) : c4inv (syncFinalize o m s) := by
  unfold syncFinalize
  dsimp only
  repeat' split
  all_goals exact h

/-- C4, amended: the context log grows only by appends — entries are never
removed or reordered, and every field an entry was appended with keeps its
value through to the returned result; the only post-append mutation is
filling the `error_analysis` (on execution failure) or `final_answer` (on
answer synthesis) slot of the most recently appended entry, both of which
are absent at append time. -/
theorem claim_C4_amended (o : Oracles) (m : Nat) :
    (syncFinalState o m).context.map entryCore =
      (syncFinalState o m).appendedLog.map entryCore ∧
    (syncFinalState o m).appendedLog.all
      (fun e => e.error_analysis.isNone && e.final_answer.isNone) = true :=
  c4inv_syncFinalize o m _ (c4inv_runLoop o m m {} ⟨rfl, rfl⟩)

/-- C4, counterexample: on a run whose single proposed SQL executes and
fails, the context entry was appended without an `error_analysis` field
(ghost log) and later mutated in place to carry one (retained log) — so an
appended entry does not retain exactly the fields it was appended with. -/
theorem claim_C4_counterexample :
    (syncFinalState oracleC4 1).context.map (fun e => e.error_analysis.isSome)
      = [true] ∧
    (syncFinalState oracleC4 1).appendedLog.map (fun e => e.error_analysis.isSome)
      = [false] :=
  ⟨rfl, rfl⟩

/-! ## C5 — generation-error handling -/

/-- C5, amended.  When the generation collaborator reports
`action = "error"`: on iteration 1 the orchestrator aborts immediately
with that error recorded as the terminal error of the result
(`success = false`, empty context, iteration count 1; stated for budgets
of at least 2 and a non-empty reported error text, since a budget of 1
overwrites the message with the budget-exceeded error and an empty text
is replaced by `未知错误`); on any iteration after the first it continues
the loop silently — without appending any context entry. -/
theorem claim_C5_amended :
    (∀ (o : Oracles) (m : Nat), 2 ≤ m → (o.gen 1).action = "error" →
      (o.gen 1).error.getD "生成失败" ≠ "" →
      query o m = { success := false, answer := "抱歉，无法回答该问题。", iterations := 1,
                    context := [], error := some ((o.gen 1).error.getD "生成失败") }) ∧
    (∀ (o : Oracles) (s : AgentState), 1 ≤ s.iteration →
      (o.gen (s.iteration + 1)).action = "error" →
      syncStep o s = ({ s with iteration := s.iteration + 1 }, Ctl.cont)) := by
  constructor
  · intro o m hm h1 hne
    obtain ⟨k, rfl⟩ : ∃ k, m = k + 2 := ⟨m - 2, by omega⟩
    have hstep : syncStep o {} =
        ({ iteration := 1, context := [], final_answer := none, success := false,
           error := some ((o.gen 1).error.getD "生成失败"), appendedLog := [] }, Ctl.brk) := by
      unfold syncStep genErrorBranch
      dsimp only
      rw [if_pos h1]
      rfl
    have hloop : runLoop syncStep o (k + 2) (k + 2) {} =
        { iteration := 1, context := [], final_answer := none, success := false,
          error := some ((o.gen 1).error.getD "生成失败"), appendedLog := [] } := by
      show runLoop syncStep o (k + 2) (k + 1 + 1) {} =  _
      unfold runLoop
      rw [if_pos (show ({} : AgentState).iteration < k + 2 by show 0 < k + 2; omega), hstep]
    show buildResult (syncFinalize o (k + 2) (runLoop syncStep o (k + 2) (k + 2) {})) = _
    rw [hloop]
    unfold syncFinalize
    rw [if_pos rfl, if_neg (by omega : ¬ (1 ≥ k + 2)), if_pos (by simpa [truthyOptStr] using hne)]
    unfold buildResult
    rfl
  · intro o s hs h
    unfold syncStep genErrorBranch
    dsimp only
    rw [if_pos h, if_neg (by omega : ¬ (s.iteration + 1 = 1))]

/-- C5, witness: both parts of the amended claim applied at concrete
inputs (generation errors on every iteration, budget 2; and a state at
iteration 1 stepping into iteration 2). -/
theorem claim_C5_witness :
    (2 ≤ 2 ∧ (oracleErr1.gen 1).action = "error" ∧
      (oracleErr1.gen 1).error.getD "生成失败" ≠ "" ∧
      query oracleErr1 2 = { success := false, answer := "抱歉，无法回答该问题。",
                             iterations := 1, context := [],
                             error := some "生成服务超时" }) ∧
    (1 ≤ ({ iteration := 1 } : AgentState).iteration ∧
      (oracleErr1.gen 2).action = "error" ∧
      syncStep oracleErr1 { iteration := 1 } =
        ({ iteration := 2 }, Ctl.cont)) := by
  constructor
  · exact ⟨le_refl 2, rfl, by decide,
      claim_C5_amended.1 oracleErr1 2 (le_refl 2) rfl (by decide)⟩
  · exact ⟨le_refl 1, rfl, claim_C5_amended.2 oracleErr1 { iteration := 1 } (le_refl 1) rfl⟩

/-- C5, counterexample.  The claim asserts that a generation error on an
iteration after the first appends an error-tagged context entry.  On the
concrete run whose generation reports an error on iteration 2 (budget 2),
the final context is empty: nothing was appended (agent.py:184-185 simply
`continue`s). -/
theorem claim_C5_counterexample :
    (oracleC5.gen 2).action = "error" ∧
    (query oracleC5 2).iterations = 2 ∧
    (query oracleC5 2).context = [] :=
  ⟨rfl, rfl, rfl⟩

/-! ## C7 — budget exhaustion without any successful execution -/

theorem hasSuccessfulQuery_append (l : List ContextEntry) (e : ContextEntry) :
    hasSuccessfulQuery (l ++ [e]) = (hasSuccessfulQuery l || entrySuccess e) := by
  simp [hasSuccessfulQuery, List.any_append]

theorem syncStep_rejected (o : Oracles) (s : AgentState)
    (h : rejectedProposal (o.gen (s.iteration + 1))) :
    syncStep o s =
      (appendEntry { s with iteration := s.iteration + 1 }
        (rejectionEntry (s.iteration + 1) (o.gen (s.iteration + 1))
          ((o.gen (s.iteration + 1)).sql.getD "")
          (sqlValidatorValidate ((o.gen (s.iteration + 1)).sql.getD "").data)),
       Ctl.cont) := by
  obtain ⟨ha, hsql, hv⟩ := h
  unfold syncStep syncExecBranch
  dsimp only
  rw [if_neg (by simp [ha]), if_pos ha, if_neg hsql, if_pos hv]

theorem c7_loop (o : Oracles) (m : Nat) :
    ∀ (fuel : Nat) (s : AgentState), s.iteration + fuel = m →
      s.success = false → hasSuccessfulQuery s.context = false →
      (∀ i, s.iteration < i → i ≤ m → rejectedProposal (o.gen i)) →
      (runLoop syncStep o m fuel s).iteration = m ∧
      (runLoop syncStep o m fuel s).success = false ∧
      hasSuccessfulQuery (runLoop syncStep o m fuel s).context = false
  | 0, s, hfm, hsucc, hctx, hgen => by
    unfold runLoop
    exact ⟨by omega, hsucc, hctx⟩
  | fuel + 1, s, hfm, hsucc, hctx, hgen => by
    unfold runLoop
    rw [if_pos (by omega : s.iteration < m),
      syncStep_rejected o s (hgen (s.iteration + 1) (by omega) (by omega))]
    dsimp only
    apply c7_loop o m fuel
    · show s.iteration + 1 + fuel = m
      omega
    · exact hsucc
    · show hasSuccessfulQuery (s.context ++ [_]) = false
      rw [hasSuccessfulQuery_append, hctx]
      rfl
    · intro i hi1 hi2
      have hi1' : s.iteration + 1 < i := hi1
      exact hgen i (by omega) hi2

/-- C7.  If the synchronous orchestration loop exits with the iteration
budget used up, no success flag and no successful execution anywhere in
the context log, the returned result reports failure, an iteration count
equal to the budget and the explicit budget-exceeded error message; and in
particular (second conjunct) this is what happens whenever every
generation response proposes non-empty SQL that the Safety Gate's
structural validator rejects, for any budget of at least one. -/
theorem claim_C7 :
    (∀ (o : Oracles) (m : Nat),
      (runLoop syncStep o m m {}).success = false →
      (runLoop syncStep o m m {}).iteration = m →
      hasSuccessfulQuery (runLoop syncStep o m m {}).context = false →
      (query o m).success = false ∧ (query o m).iterations = m ∧
        (query o m).error =
          some ("达到最大迭代次数 (" ++ toString m ++ ")，未能完成查询")) ∧
    (∀ (o : Oracles) (m : Nat), 1 ≤ m →
      (∀ i, 1 ≤ i → i ≤ m → rejectedProposal (o.gen i)) →
      (query o m).success = false ∧ (query o m).iterations = m ∧
        (query o m).error =
          some ("达到最大迭代次数 (" ++ toString m ++ ")，未能完成查询")) := by
  have main : ∀ (o : Oracles) (m : Nat),
      (runLoop syncStep o m m {}).success = false →
      (runLoop syncStep o m m {}).iteration = m →
      hasSuccessfulQuery (runLoop syncStep o m m {}).context = false →
      (query o m).success = false ∧ (query o m).iterations = m ∧
        (query o m).error =
          some ("达到最大迭代次数 (" ++ toString m ++ ")，未能完成查询") := by
    intro o m hsucc hiter hctx
    unfold query syncFinalState syncFinalize
    rw [if_pos hsucc, if_pos (by rw [hiter] : (runLoop syncStep o m m {}).iteration ≥ m)]
    dsimp only
    rw [if_neg (by simp [hctx])]
    exact ⟨hsucc, hiter, rfl⟩
  refine ⟨main, ?_⟩
  intro o m hm hgen
  have h := c7_loop o m m {} (Nat.zero_add m) rfl rfl
    (fun i hi1 hi2 => hgen i hi1 hi2)
  exact main o m h.2.1 h.1 h.2.2

/-- C7, witness: the budget-3 scenario in which all three generation
calls propose `WITH x`, which the structural validator rejects. -/
theorem claim_C7_witness :
    1 ≤ 3 ∧ (∀ i, 1 ≤ i → i ≤ 3 → rejectedProposal (oracleC7.gen i)) ∧
    (query oracleC7 3).success = false ∧ (query oracleC7 3).iterations = 3 ∧
    (query oracleC7 3).error = some "达到最大迭代次数 (3)，未能完成查询" := by
  have hg : ∀ i, 1 ≤ i → i ≤ 3 → rejectedProposal (oracleC7.gen i) :=
    fun i _ _ => ⟨rfl, show ("WITH x" : String) ≠ "" by decide,
      show (sqlValidatorValidate "WITH x".data).is_valid = false by decide⟩
  have h := claim_C7.2 oracleC7 3 (by omega) hg
  exact ⟨by omega, hg, h.1, h.2.1, h.2.2⟩

/-! ## C1 — synchronous/streaming refinement -/

theorem afterIsFinal_false {g : GenResult} (s : AgentState)
    (hf : g.is_final = false) : afterIsFinal g s = (s, Ctl.cont) := by
  unfold afterIsFinal
  rw [hf]
  rfl

theorem judgeBranch_brk_success {o : Oracles} {g : GenResult} {s : AgentState}
    {ex : ExecResult} (hf : g.is_final = false) :
    ∀ s', judgeBranch o g s ex = (s', Ctl.brk) → s'.success = true := by
  intro s' hs'
  unfold judgeBranch at hs'
  split at hs'
  · split at hs'
    · injection hs' with h1 h2
      rw [← h1]
    · rw [afterIsFinal_false s hf] at hs'
      injection hs' with h1 h2
      exact absurd h2 (by decide)
  · split at hs'
    · injection hs' with h1 h2
      rw [← h1]
    · rw [afterIsFinal_false s hf] at hs'
      injection hs' with h1 h2
      exact absurd h2 (by decide)

theorem judgeBranch_cont_eq {o : Oracles} {g : GenResult} {s : AgentState}
    {ex : ExecResult} (hf : g.is_final = false) :
    ∀ s', judgeBranch o g s ex = (s', Ctl.cont) → s' = s := by
  intro s' hs'
  unfold judgeBranch at hs'
  split at hs'
  · split at hs'
    · injection hs' with h1 h2
      exact absurd h2 (by decide)
    · rw [afterIsFinal_false s hf] at hs'
      injection hs' with h1 h2
      exact h1.symm
  · split at hs'
    · injection hs' with h1 h2
      exact absurd h2 (by decide)
    · rw [afterIsFinal_false s hf] at hs'
      injection hs' with h1 h2
      exact h1.symm

theorem syncStep_answer (o : Oracles) (s : AgentState)
    (ha : (o.gen (s.iteration + 1)).action = "answer") :
    syncStep o s = answerBranch (o.gen (s.iteration + 1))
      { s with iteration := s.iteration + 1 } := by
  unfold syncStep
  dsimp only
  rw [if_neg (by simp [ha]), if_neg (by simp [ha]), if_pos ha]

theorem streamStep_answer (o : Oracles) (s : AgentState)
    (ha : (o.gen (s.iteration + 1)).action = "answer") :
    streamStep o s = answerBranch (o.gen (s.iteration + 1))
      { s with iteration := s.iteration + 1 } := by
  unfold streamStep
  dsimp only
  rw [if_neg (by simp [ha]), if_neg (by simp [ha]), if_pos ha]

theorem syncStep_goodExec (o : Oracles) (s : AgentState)
    (ha : (o.gen (s.iteration + 1)).action = "execute_sql")
    (hsql : (o.gen (s.iteration + 1)).sql.getD "" ≠ "")
    (hv : (sqlValidatorValidate ((o.gen (s.iteration + 1)).sql.getD "").data).is_valid = true)
    (hex : (o.exec (s.iteration + 1)).success = true) :
    syncStep o s = judgeBranch o (o.gen (s.iteration + 1))
      (appendEntry { s with iteration := s.iteration + 1 }
        (execEntry (s.iteration + 1) (o.gen (s.iteration + 1))
          ((o.gen (s.iteration + 1)).sql.getD "") (o.exec (s.iteration + 1))))
      (o.exec (s.iteration + 1)) := by
  unfold syncStep syncExecBranch
  dsimp only
  rw [if_neg (by simp [ha]), if_pos ha, if_neg hsql, if_neg (by simp [hv]),
    if_neg (by simp [hex])]

theorem streamStep_goodExec (o : Oracles) (s : AgentState)
    (ha : (o.gen (s.iteration + 1)).action = "execute_sql")
    (hsql : (o.gen (s.iteration + 1)).sql.getD "" ≠ "")
    (hex : (o.exec (s.iteration + 1)).success = true) :
    streamStep o s = judgeBranch o (o.gen (s.iteration + 1))
      (appendEntry { s with iteration := s.iteration + 1 }
        (execEntry (s.iteration + 1) (o.gen (s.iteration + 1))
          ((o.gen (s.iteration + 1)).sql.getD "") (o.exec (s.iteration + 1))))
      (o.exec (s.iteration + 1)) := by
  unfold streamStep streamExecBranch
  dsimp only
  rw [if_neg (by simp [ha]), if_pos ha, if_neg hsql, if_pos hex]

theorem wellBehaved_step (o : Oracles) (s : AgentState)
    (h : wellBehavedGen o (s.iteration + 1)) :
    syncStep o s = streamStep o s ∧
    (∀ s', syncStep o s = (s', Ctl.brk) → s'.success = true) ∧
    (∀ s', syncStep o s = (s', Ctl.cont) →
      s'.success = s.success ∧ hasSuccessfulQuery s'.context = true) := by
  rcases h with ⟨ha, hne⟩ | ⟨ha, hsql, hv, hf, hex⟩
  · have e1 := syncStep_answer o s ha
    have e2 := streamStep_answer o s ha
    refine ⟨e1.trans e2.symm, ?_, ?_⟩
    · intro s' hs'
      rw [e1] at hs'
      unfold answerBranch at hs'
      rw [if_neg hne] at hs'
      dsimp only at hs'
      injection hs' with h1 h2
      rw [← h1]
      rfl
    · intro s' hs'
      rw [e1] at hs'
      unfold answerBranch at hs'
      rw [if_neg hne] at hs'
      dsimp only at hs'
      injection hs' with h1 h2
      exact absurd h2 (by decide)
  · have e1 := syncStep_goodExec o s ha hsql hv hex
    have e2 := streamStep_goodExec o s ha hsql hex
    refine ⟨e1.trans e2.symm, ?_, ?_⟩
    · intro s' hs'
      rw [e1] at hs'
      exact judgeBranch_brk_success hf s' hs'
    · intro s' hs'
      rw [e1] at hs'
      have := judgeBranch_cont_eq hf s' hs'
      subst this
      constructor
      · rfl
      · show hasSuccessfulQuery (s.context ++ [_]) = true
        rw [hasSuccessfulQuery_append]
        have : entrySuccess (execEntry (s.iteration + 1) (o.gen (s.iteration + 1))
            ((o.gen (s.iteration + 1)).sql.getD "") (o.exec (s.iteration + 1))) = true := by
          unfold entrySuccess execEntry
          exact hex
        rw [this, Bool.or_true]

theorem c1_loop (o : Oracles) (m : Nat) (hm : 1 ≤ m)
    (hwb : ∀ i, 1 ≤ i → i ≤ m → wellBehavedGen o i) :
    ∀ (fuel : Nat) (s : AgentState), s.iteration + fuel = m →
      (s.success = false → s.iteration = 0 ∨ hasSuccessfulQuery s.context = true) →
      runLoop syncStep o m fuel s = runLoop streamStep o m fuel s ∧
      ((runLoop syncStep o m fuel s).success = true ∨
       ((runLoop syncStep o m fuel s).iteration = m ∧
        hasSuccessfulQuery (runLoop syncStep o m fuel s).context = true))
  | 0, s, hfm, hinv => by
    unfold runLoop
    refine ⟨rfl, ?_⟩
    rcases hb : s.success with _ | _
    · rcases hinv hb with h0 | hq
      · omega
      · exact Or.inr ⟨by omega, hq⟩
    · exact Or.inl rfl
  | fuel + 1, s, hfm, hinv => by
    have hwb' := hwb (s.iteration + 1) (by omega) (by omega)
    obtain ⟨heq, hbrk, hcont⟩ := wellBehaved_step o s hwb'
    have hguard : s.iteration < m := by omega
    unfold runLoop
    rw [if_pos hguard, if_pos hguard]
    rcases hs : syncStep o s with ⟨s', ctl⟩
    rw [show streamStep o s = (s', ctl) from heq ▸ hs]
    cases ctl
    · dsimp only
      exact ⟨rfl, Or.inl (hbrk s' hs)⟩
    · dsimp only
      have hiter : s'.iteration = s.iteration + 1 := by
        have h' := syncStep_iteration o s
        rw [hs] at h'
        exact h'
      have hc := hcont s' hs
      exact c1_loop o m hm hwb fuel s' (by omega)
        (fun _ => Or.inr hc.2)

theorem hasSuccessfulQuery_ne_nil {l : List ContextEntry}
    (h : hasSuccessfulQuery l = true) : l.isEmpty = false := by
  cases l
  · exact absurd h (by decide)
  · rfl

theorem c1_finalize (o : Oracles) (m : Nat) (t : AgentState)
    (hP : t.success = true ∨
      (t.iteration = m ∧ hasSuccessfulQuery t.context = true)) :
    syncFinalize o m t = streamFinalize o m t := by
  rcases ht : t.success with _ | _
  · rcases hP with h | ⟨hi, hq⟩
    · rw [ht] at h
      exact absurd h (by decide)
    · unfold syncFinalize streamFinalize
      rw [if_pos ht, if_pos ht, if_pos (by omega : t.iteration ≥ m),
        if_pos (by omega : t.iteration ≥ m)]
      dsimp only
      rw [if_pos ⟨by rw [hasSuccessfulQuery_ne_nil hq]; rfl, hq⟩,
        if_pos ⟨by rw [hasSuccessfulQuery_ne_nil hq]; rfl, hq⟩]
  · unfold syncFinalize streamFinalize
    rw [if_neg (by simp [ht]), if_neg (by simp [ht])]

/-- C1, amended.  On every run in which each generation response either
carries a non-empty direct answer, or proposes non-empty SQL that passes
the structural validator, is not flagged `is_final`, and executes
successfully, the `final` event of `ERPAgent.query_stream` is
field-for-field identical (success, answer, iterations, context, error) to
the dictionary returned by `ERPAgent.query` — for any positive iteration
budget and any judgment/synthesis responses.  In general the two paths
differ: the streaming loop skips the pre-execution structural validation,
attaches no `error_analysis` on execution failure, uses a shorter
budget-exceeded message, and handles unknown actions and the `is_final`
flag differently (see the counterexample). -/
theorem claim_C1_amended (o : Oracles) (m : Nat) (hm : 1 ≤ m)
    (hwb : ∀ i, 1 ≤ i → i ≤ m → wellBehavedGen o i) :
    query o m = queryStream o m := by
  have h := c1_loop o m hm hwb m {} (Nat.zero_add m) (fun _ => Or.inl rfl)
  unfold query queryStream syncFinalState streamFinalState
  rw [← h.1, c1_finalize o m _ h.2]

/-- C1, counterexample.  With a single iteration whose generation returns
an unknown action, the synchronous result and the streamed `final` payload
disagree on the `error` field: the synchronous finalization writes
`达到最大迭代次数 (1)，未能完成查询` (agent.py:422) while the streaming
finalization writes `达到最大迭代次数 (1)` (agent.py:716). -/
theorem claim_C1_counterexample :
    (query oracleNoop 1).error = some "达到最大迭代次数 (1)，未能完成查询" ∧
    (queryStream oracleNoop 1).error = some "达到最大迭代次数 (1)" ∧
    (query oracleNoop 1).error ≠ (queryStream oracleNoop 1).error :=
  ⟨rfl, rfl, by decide⟩

/-- C1, witness: a well-behaved concrete run (validator-accepted SQL,
successful execution, judgment finalizes on iteration 1) on which the two
paths agree. -/
theorem claim_C1_witness :
    1 ≤ 3 ∧ (∀ i, 1 ≤ i → i ≤ 3 → wellBehavedGen oracleGood i) ∧
    query oracleGood 3 = queryStream oracleGood 3 := by
  have hwb : ∀ i, 1 ≤ i → i ≤ 3 → wellBehavedGen oracleGood i := fun i _ _ =>
    Or.inr ⟨rfl, show ("SELECT COUNT(*) FROM employees" : String) ≠ "" by decide,
      show (sqlValidatorValidate "SELECT COUNT(*) FROM employees".data).is_valid = true
        by decide, rfl, rfl⟩
  exact ⟨by omega, hwb, claim_C1_amended oracleGood 3 (by omega) hwb⟩

/-! ## C10 — executor non-termination on unbalanced block-comment markers -/

theorem firstMatch_close_famK (k : Nat) :
    firstMatch "*/".data (famK k) = some 0 := by
  unfold famK firstMatch
  rw [if_pos (by simp [List.isPrefixOf])]

theorem firstMatch_open_spaces (k : Nat) :
    firstMatch "/*".data (List.replicate k ' ' ++ ['/', '*']) = some k := by
  induction k with
  | zero => decide
  | succ n ih =>
    rw [List.replicate_succ, List.cons_append]
    unfold firstMatch
    rw [if_neg (by simp [List.isPrefixOf]), ih]
    rfl

theorem star_not_prefix_spaces (k : Nat) :
    (['*'] : List Char).isPrefixOf (List.replicate k ' ' ++ ['/', '*']) = false := by
  cases k with
  | zero => decide
  | succ n =>
    rw [List.replicate_succ, List.cons_append]
    simp [List.isPrefixOf]

theorem firstMatch_open_famK (k : Nat) :
    firstMatch "/*".data (famK k) = some (k + 2) := by
  show firstMatch "/*".data ('*' :: '/' :: (List.replicate k ' ' ++ ['/', '*'])) = _
  unfold firstMatch
  rw [if_neg (by simp [List.isPrefixOf])]
  unfold firstMatch
  rw [if_neg (by simp [List.isPrefixOf, star_not_prefix_spaces k])]
  rw [firstMatch_open_spaces k]
  rfl

theorem blockCond_famK (k : Nat) : blockCond (famK k) = true := by
  unfold blockCond containsSub
  rw [firstMatch_open_famK, firstMatch_close_famK]
  rfl

theorem spliceStep_famK (k : Nat) : spliceStep (famK k) = famK (2 * k + 1) := by
  unfold spliceStep
  rw [firstMatch_open_famK, firstMatch_close_famK]
  show (famK k).take (k + 2) ++ ' ' :: (famK k).drop 2 = famK (2 * k + 1)
  have htake : (famK k).take (k + 2) = '*' :: '/' :: List.replicate k ' ' := by
    show (('*' :: '/' :: List.replicate k ' ') ++ ['/', '*']).take (k + 2) = _
    have hlen : ('*' :: '/' :: List.replicate k ' ').length = k + 2 := by simp
    rw [← hlen, List.take_left]
  have hdrop : (famK k).drop 2 = List.replicate k ' ' ++ ['/', '*'] := rfl
  rw [htake, hdrop]
  show '*' :: '/' :: (List.replicate k ' ' ++ ' ' :: (List.replicate k ' ' ++ ['/', '*'])) =
    '*' :: '/' :: (List.replicate (2 * k + 1) ' ' ++ ['/', '*'])
  have : List.replicate k ' ' ++ ' ' :: List.replicate k ' ' =
      List.replicate (2 * k + 1) ' ' := by
    rw [show 2 * k + 1 = k + (k + 1) by omega, List.replicate_add,
      List.replicate_succ]
  rw [← this]
  simp

theorem blockLoop_famK (fuel : Nat) : ∀ k, blockLoop fuel (famK k) = none := by
  induction fuel with
  | zero =>
    intro k
    unfold blockLoop
    rw [blockCond_famK]
    rfl
  | succ n ih =>
    intro k
    unfold blockLoop
    rw [blockCond_famK]
    show blockLoop n (spliceStep (famK k)) = none
    rw [spliceStep_famK]
    exact ih (2 * k + 1)

theorem validateSql_diverges (fuel : Nat) :
    validateSql fuel "*/ /*".data = none := by
  unfold validateSql
  rw [if_neg (by decide : ¬ (toUpperL (stripL "*/ /*".data) = []))]
  rw [show stripLineComments (toUpperL (stripL "*/ /*".data)) = famK 1 from rfl]
  rw [blockLoop_famK fuel 1]

/-- C10 (code bug).  On the SQL text `\x2a/ /\x2a` — a stray block-comment
closer before an opener, which the quote-unaware stripper can meet inside
string literals — `SQLExecutor.execute` never returns at all: the
block-comment removal loop of `validate_sql` re-creates both markers on
every pass (each pass maps the gap of `k` spaces to `2k+1`) and therefore
never terminates, for every fuel bound, contradicting the claim that
`execute` always returns a result record. -/
theorem claim_C10 (fuel maxRows timeoutSec : Nat) (db : String → DbOutcome) :
    executeSql fuel maxRows timeoutSec db "*/ /*" = none := by
  unfold executeSql
  rw [validateSql_diverges fuel]

/-! ## C3 — forbidden-keyword standalone-token rejection -/

theorem getD_eq_headD_drop (l : List Char) (n : Nat) (d : Char) :
    l.getD n d = (l.drop n).headD d := by
  induction l generalizing n with
  | nil => cases n <;> rfl
  | cons c rest ih =>
    cases n with
    | zero => rfl
    | succ m => exact ih m

theorem containsSub_cons (pat : List Char) (c : Char) (rest : List Char) :
    containsSub pat (c :: rest) =
      (pat.isPrefixOf (c :: rest) || containsSub pat rest) := by
  conv_lhs => unfold containsSub firstMatch
  cases hp : pat.isPrefixOf (c :: rest) with
  | false =>
    rw [if_neg (by simp [hp])]
    simp [containsSub]
  | true =>
    rw [if_pos (by simp [hp])]
    simp

theorem containsSub_iff (pat : List Char) :
    ∀ s, containsSub pat s = true ↔ ∃ a b, s = a ++ (pat ++ b)
  | [] => by
    unfold containsSub firstMatch
    constructor
    · intro h
      split at h
      · rename_i hp
        rw [List.isPrefixOf_iff_prefix] at hp
        obtain ⟨t, ht⟩ := hp
        refine ⟨[], [], ?_⟩
        have hpnil : pat = [] := by
          cases pat
          · rfl
          · simp at ht
        simp [hpnil]
      · simp at h
    · rintro ⟨a, b, hab⟩
      have : pat = [] := by
        rcases List.append_eq_nil.mp hab.symm with ⟨h1, h2⟩
        rcases List.append_eq_nil.mp h2 with ⟨h3, _⟩
        exact h3
      rw [if_pos (by simp [this, List.isPrefixOf])]
      rfl
  | c :: rest => by
    rw [containsSub_cons, Bool.or_eq_true, containsSub_iff pat rest,
      List.isPrefixOf_iff_prefix]
    constructor
    · rintro (⟨t, ht⟩ | ⟨a, b, hab⟩)
      · exact ⟨[], t, by simp [← ht]⟩
      · exact ⟨c :: a, b, by simp [hab]⟩
    · rintro ⟨a, b, hab⟩
      cases a with
      | nil => exact Or.inl ⟨b, by simpa using hab.symm⟩
      | cons a0 a' =>
        right
        refine ⟨a', b, ?_⟩
        have h2 : c :: rest = a0 :: (a' ++ (pat ++ b)) := by simpa using hab
        injection h2 with _ h3

theorem standalone_of_padded (k t : List Char) (c : Char)
    (hk : k ≠ []) (hwc : isWordChar c = false)
    (h : containsSub (' ' :: k ++ [c]) (' ' :: t ++ [c]) = true) :
    containsStandalone k t = true := by
  obtain ⟨a, b, hab⟩ := (containsSub_iff _ _).mp h
  have hab2 : [' '] ++ (t ++ [c]) = (a ++ [' ']) ++ (k ++ (c :: b)) := by
    simpa [List.append_assoc] using hab
  have hk1 : 1 ≤ k.length := List.length_pos.mpr hk
  have hlen : t.length = a.length + k.length + b.length := by
    have hl := congrArg List.length hab2
    simp at hl
    omega
  have hale : a.length ≤ t.length := by omega
  have heq2 : t.drop a.length ++ [c] = k ++ (c :: b) := by
    have h1 : ([' '] ++ (t ++ [c])).drop (a.length + 1) = t.drop a.length ++ [c] := by
      rw [List.singleton_append, List.drop_succ_cons,
        List.drop_append_of_le_length hale]
    have h2 : ((a ++ [' ']) ++ (k ++ (c :: b))).drop (a.length + 1) = k ++ (c :: b) := by
      rw [show a.length + 1 = (a ++ [' ']).length by simp, List.drop_left]
    calc t.drop a.length ++ [c]
        = ([' '] ++ (t ++ [c])).drop (a.length + 1) := h1.symm
      _ = ((a ++ [' ']) ++ (k ++ (c :: b))).drop (a.length + 1) := by rw [hab2]
      _ = k ++ (c :: b) := h2
  have hklen : k.length ≤ (t.drop a.length).length := by
    simp [List.length_drop]
    omega
  have hpre : k.isPrefixOf (t.drop a.length) = true := by
    rw [List.isPrefixOf_iff_prefix, List.prefix_iff_eq_take]
    have htk : (t.drop a.length ++ [c]).take k.length = (k ++ (c :: b)).take k.length := by
      rw [heq2]
    rw [List.take_append_of_le_length hklen] at htk
    rw [show (k ++ (c :: b)).take k.length = k from List.take_left k (c :: b)] at htk
    exact htk.symm
  have heq4 : t.drop (a.length + k.length) ++ [c] = c :: b := by
    have h1 : (t.drop a.length ++ [c]).drop k.length =
        t.drop (a.length + k.length) ++ [c] := by
      rw [List.drop_append_of_le_length hklen, List.drop_drop]
    have h2 : (k ++ (c :: b)).drop k.length = c :: b := List.drop_left k (c :: b)
    calc t.drop (a.length + k.length) ++ [c]
        = (t.drop a.length ++ [c]).drop k.length := h1.symm
      _ = (k ++ (c :: b)).drop k.length := by rw [heq2]
      _ = c :: b := h2
  have hafter : isWordChar (t.getD (a.length + k.length) ' ') = false := by
    rw [getD_eq_headD_drop]
    cases hd : t.drop (a.length + k.length) with
    | nil => decide
    | cons d ds =>
      rw [hd] at heq4
      have hdc : d = c := by
        have := congrArg (fun l => List.headD l ' ') heq4
        simpa using this
      show isWordChar ((d :: ds).headD ' ') = false
      rw [show (d :: ds).headD ' ' = d from rfl, hdc]
      exact hwc
  have hbefore : a.length = 0 ∨ isWordChar (t.getD (a.length - 1) ' ') = false := by
    cases ha : a.length with
    | zero => exact Or.inl rfl
    | succ n =>
      right
      have hnle : n + 1 ≤ t.length := by omega
      have h1 : ([' '] ++ (t ++ [c])).drop (n + 1) = t.drop n ++ [c] := by
        rw [List.singleton_append, List.drop_succ_cons,
          List.drop_append_of_le_length (by omega)]
      have h2 : ((a ++ [' ']) ++ (k ++ (c :: b))).drop (n + 1) =
          ' ' :: (k ++ (c :: b)) := by
        rw [List.append_assoc, List.drop_append_of_le_length (by omega : n + 1 ≤ a.length)]
        rw [show a.drop (n + 1) = [] from by rw [← ha]; exact List.drop_length a]
        rfl
      have heq3 : t.drop n ++ [c] = ' ' :: (k ++ (c :: b)) := by
        calc t.drop n ++ [c]
            = ([' '] ++ (t ++ [c])).drop (n + 1) := h1.symm
          _ = ((a ++ [' ']) ++ (k ++ (c :: b))).drop (n + 1) := by rw [hab2]
          _ = ' ' :: (k ++ (c :: b)) := h2
      rw [getD_eq_headD_drop]
      show isWordChar ((t.drop n).headD ' ') = false
      cases hd : t.drop n with
      | nil =>
        rw [hd] at heq3
        have h5 : k ++ (c :: b) = [] := by
          have h6 := congrArg List.tail heq3
          simp at h6
        exact absurd h5 (by simp)
      | cons d ds =>
        rw [hd] at heq3
        have hds : d = ' ' := by
          have := congrArg (fun l => List.headD l '!') heq3
          simpa using this
        show isWordChar ((d :: ds).headD ' ') = false
        rw [show (d :: ds).headD ' ' = d from rfl, hds]
        decide
  unfold containsStandalone
  rw [List.any_eq_true]
  refine ⟨a.length, List.mem_range.mpr (by omega), ?_⟩
  unfold standaloneAt
  rw [hpre, hafter]
  rcases hbefore with h0 | hb
  · rw [h0]
    simp
  · rw [hb]
    simp

theorem keywordHit_standalone (k t : List Char) (hk : k ≠ [])
    (h : keywordHit k t = true) : containsStandalone k t = true := by
  unfold keywordHit at h
  simp only [Bool.or_eq_true] at h
  rcases h with h' | h'
  · exact standalone_of_padded k t ' ' hk (by decide) h'
  · exact standalone_of_padded k t ';' hk (by decide) h'

/-- C3, counterexample.  `SELECT A\tDROP\tB` contains `DROP` as a
standalone token (delimited by tab characters, which are whitespace), yet
`validate_sql` accepts it: the keyword check of sql_executor.py:205-206
only matches keywords delimited by ASCII *space* characters. -/
theorem claim_C3_counterexample :
    containsStandalone "DROP".data (toUpperL "SELECT A\tDROP\tB".data) = true ∧
    "DROP".data ∈ forbiddenKeywords ∧
    validateSql 10 "SELECT A\tDROP\tB".data = some (true, none) :=
  ⟨by decide, by decide, by decide⟩

/-- C3, amended.  Whenever the executor's normalization of the SQL
(uppercasing, line-comment stripping, block-comment removal) terminates
and some forbidden keyword passes the source's delimiter test on the
normalized text — i.e. it occurs surrounded by ASCII spaces, or
space-preceded and followed by a semicolon or the end of the text
(`keywordHit`) — `validate_sql` rejects the statement.  (Keywords
delimited by other whitespace, such as tabs, or by punctuation can evade
the check, as the counterexample shows; every such `keywordHit` occurrence
is in particular a standalone-token occurrence, by
`keywordHit_standalone`.) -/
theorem claim_C3_amended (sql : List Char) (fuel : Nat) (t k : List Char)
    (hk : k ∈ forbiddenKeywords)
    (ht : blockLoop fuel (stripLineComments (toUpperL (stripL sql))) = some t)
    (hhit : keywordHit k t = true) :
    (validateSql fuel sql).map Prod.fst = some false := by
  unfold validateSql
  dsimp only
  split
  · rfl
  · rw [ht]
    dsimp only
    split
    · rfl
    · rcases hf : forbiddenKeywords.find? (fun k' => keywordHit k' t) with _ | k'
      · rw [List.find?_eq_none] at hf
        exact absurd hhit (hf k hk)
      · rfl

/-- C3, witness for the amended theorem: `SELECT 1 DROP 2` carries a
space-delimited `DROP` and is rejected. -/
theorem claim_C3_witness :
    "DROP".data ∈ forbiddenKeywords ∧
    blockLoop 10 (stripLineComments (toUpperL (stripL "SELECT 1 DROP 2".data)))
      = some (toUpperL "SELECT 1 DROP 2".data) ∧
    keywordHit "DROP".data (toUpperL "SELECT 1 DROP 2".data) = true ∧
    (validateSql 10 "SELECT 1 DROP 2".data).map Prod.fst = some false := by
  refine ⟨by decide, by decide, by decide, ?_⟩
  exact claim_C3_amended "SELECT 1 DROP 2".data 10
    (toUpperL "SELECT 1 DROP 2".data) "DROP".data (by decide) (by decide) (by decide)

/-! ## C6 — Safety Gate acceptance of well-formed SELECT/WITH queries -/

theorem blockLoop_nil (fuel : Nat) : blockLoop fuel [] = some [] := by
  cases fuel <;> rfl

theorem forbidden_ne_nil : ∀ k ∈ forbiddenKeywords, k ≠ [] := by decide

/-- C6, counterexample.  `WITH x` begins with `WITH`, contains no forbidden
keyword as a standalone token, and is a single statement, so the executor's
allow-list check accepts it — but the SQLValidator structural check rejects
it (`SQL必须包含SELECT关键字`, sql_validator.py:218-223), so the Safety Gate
as a whole does not accept. -/
theorem claim_C6_counterexample :
    firstWordL (toUpperL (stripL "WITH x".data)) = "WITH".data ∧
    containsForbiddenStandalone (toUpperL (stripL "WITH x".data)) = false ∧
    (((splitOnCharL ';' (toUpperL (stripL "WITH x".data))).map stripL).filter
      (· ≠ [])).length = 1 ∧
    validateSql 10 "WITH x".data = some (true, none) ∧
    (sqlValidatorValidate "WITH x".data).is_valid = false :=
  ⟨by decide, by decide, by decide, by decide, by decide⟩

/-- C6, amended.  The claim's premises guarantee acceptance by the
executor's allow-list check (given that its block-comment stripping
terminates), but acceptance by the SQLValidator structural/compatibility
check needs further premises of its own: the cleaned SQL must contain
`SELECT` as a substring (a bare `WITH` prefix is not enough, as the
counterexample shows), have balanced parentheses, contain `FROM` whenever it
contains `WHERE`, and trip neither `generate_series`-in-`WHERE` nor
`generate_series`-in-`HAVING` pattern.  Under the combined premises both
checks accept. -/
theorem claim_C6_amended (sql : List Char) (fuel : Nat) (t : List Char)
    (ht : blockLoop fuel (stripLineComments (toUpperL (stripL sql))) = some t)
    (hfw : firstWordL t = "SELECT".data ∨ firstWordL t = "WITH".data)
    (hnk : containsForbiddenStandalone t = false)
    (hstmt : (((splitOnCharL ';' (toUpperL (stripL sql))).map stripL).filter
      (· ≠ [])).length ≤ 1)
    (hsel : containsSub "SELECT".data (toUpperL (cleanSql sql)) = true)
    (hpar : (cleanSql sql).count '(' = (cleanSql sql).count ')')
    (hwf : containsSub "WHERE".data (toUpperL (cleanSql sql)) = true →
      containsSub "FROM".data (toUpperL (cleanSql sql)) = true)
    (hgs1 : hasGenSeriesAfter "where".data (cleanSql sql) = false)
    (hgs2 : hasGenSeriesAfter "having".data (cleanSql sql) = false) :
    validateSql fuel sql = some (true, none) ∧
    (sqlValidatorValidate sql).is_valid = true := by
  constructor
  · unfold validateSql
    dsimp only
    split
    · rename_i hemp
      exfalso
      rw [hemp, show stripLineComments ([] : List Char) = [] from rfl,
        blockLoop_nil] at ht
      injection ht with ht'
      rcases hfw with h | h <;> rw [← ht'] at h <;> exact absurd h (by decide)
    · rw [ht]
      dsimp only
      split
      · rename_i hne
        exfalso
        rcases hfw with h | h
        · exact hne.1 h
        · exact hne.2 h
      · rcases hf : forbiddenKeywords.find? (fun k => keywordHit k t) with _ | k
        · dsimp only
          rw [if_neg (by omega)]
        · exfalso
          have hmem : k ∈ forbiddenKeywords := List.mem_of_find?_eq_some hf
          have hhit2' := List.find?_some hf
          have hhit2 : keywordHit k t = true := hhit2'
          have hstand : containsStandalone k t = true :=
            keywordHit_standalone k t (forbidden_ne_nil k hmem) hhit2
          have hall : containsForbiddenStandalone t = true := by
            unfold containsForbiddenStandalone
            exact List.any_eq_true.mpr ⟨k, hmem, hstand⟩
          rw [hall] at hnk
          exact Bool.noConfusion hnk
  · have hcep : checkErrorPatterns (cleanSql sql) = none := by
      unfold checkErrorPatterns
      rw [hgs1, hgs2]
      rfl
    have hcss : checkSqlStructure (cleanSql sql) = (true, none, none) := by
      unfold checkSqlStructure
      dsimp only
      rw [hsel]
      rw [show (!true) = false from rfl, if_neg Bool.false_ne_true,
        if_neg (by rw [hpar]; exact fun h => h rfl)]
      cases hW : containsSub "WHERE".data (toUpperL (cleanSql sql)) with
      | false =>
        rw [if_neg (by simp)]
      | true =>
        rw [hwf hW]
        rw [if_neg (by simp)]
    unfold sqlValidatorValidate
    dsimp only
    rw [hcep, hcss]

/-- C6, witness for the amended theorem at
`SELECT COUNT(*) FROM employees`: both the executor gate and the
SQLValidator accept. -/
theorem claim_C6_witness :
    validateSql 10 "SELECT COUNT(*) FROM employees".data = some (true, none) ∧
    (sqlValidatorValidate "SELECT COUNT(*) FROM employees".data).is_valid
      = true :=
  claim_C6_amended "SELECT COUNT(*) FROM employees".data 10
    (toUpperL "SELECT COUNT(*) FROM employees".data)
    (by decide) (Or.inl (by decide)) (by decide) (by decide) (by decide)
    (by decide) (by decide) (by decide) (by decide)

end ErpAgent
